import Mathlib

/-!
Verification development for the Buk HR export script (12_ApiBuk_NV.py).

The script fetches employee records from a JSON HTTP API, classifies each
employee as active or terminated, builds one fixed-schema output row per
qualifying employee and writes two sorted CSV files.  Here the pure
transformation core of the script is embedded shallowly in Lean:

* Python values coming out of the JSON payload are modelled by `JVal`
  (null, string, arbitrary-precision integer, boolean, dict with string
  keys, list).  JSON floating point numbers are outside the modelled value
  domain; the only float operations the script performs on string data
  (float(...) parses and 2-place formatting) are modelled by exact decimal
  arithmetic, which agrees with CPython on the inputs appearing in the
  theorems below.
* Python dicts are association lists in insertion order, which is exactly
  the iteration order the script relies on.
* Code that can raise (attribute access on None, .strip() on a non-string,
  len(None), iteration over a non-list) is modelled in the Except monad;
  a raised exception is an `Except.error`.
* Unicode details are modelled for the character set the script actually
  manipulates: ASCII plus the Spanish accented letters the code folds
  explicitly; other non-ASCII characters are dropped by the ASCII
  normalizer, as unicodedata NFKD + ascii-ignore does for accented Latin
  letters.

Each definition carries the name of the Python function it embeds.
-/

set_option maxRecDepth 10000

namespace ApiBuk

/-- Model of a Python value as produced by json loading (floats excluded). -/
inductive JVal where
  | jnull
  | jstr (s : String)
  | jint (n : Int)
  | jbool (b : Bool)
  | jdict (entries : List (String × JVal))
  | jlist (items : List JVal)
deriving Inhabited

/-- An employee record as handed to the row builder: a JSON object. -/
abbrev PyDict := List (String × JVal)

/-- Python truthiness of a modelled value. -/
def pyTruthy : JVal → Bool
  | .jnull => false
  | .jstr s => !s.data.isEmpty
  | .jint n => decide (n ≠ 0)
  | .jbool b => b
  | .jdict l => !l.isEmpty
  | .jlist l => !l.isEmpty

/-- Python `a or b` on modelled values. -/
def pyOr (a b : JVal) : JVal := if pyTruthy a then a else b

/-- dict.get on an association list: first binding wins, default otherwise. -/
def alistGet (l : PyDict) (key : String) (default : JVal) : JVal :=
  match l with
  | [] => default
  | (k, v) :: t => if k = key then v else alistGet t key default

/-- Method call `v.get(key, default)`; raises AttributeError unless v is a dict. -/
def pyGet (v : JVal) (key : String) (default : JVal) : Except String JVal :=
  match v with
  | .jdict l => .ok (alistGet l key default)
  | _ => .error "AttributeError"

/-- Python len(v); raises TypeError on values with no length. -/
def pyLen : JVal → Except String Nat
  | .jstr s => .ok s.data.length
  | .jdict l => .ok l.length
  | .jlist l => .ok l.length
  | _ => .error "TypeError"

mutual
/-- Python repr of a modelled value (quote escaping inside strings is not
modelled; no theorem below evaluates repr on a string containing quotes). -/
def reprV : JVal → String
  | .jnull => "None"
  | .jstr s => "'" ++ s ++ "'"
  | .jint n => toString n
  | .jbool b => if b then "True" else "False"
  | .jdict l => "\x7b" ++ reprEntries l ++ "\x7d"
  | .jlist l => "[" ++ reprItems l ++ "]"

/-- Comma-separated repr of dict entries. -/
def reprEntries : List (String × JVal) → String
  | [] => ""
  | [(k, v)] => "'" ++ k ++ "': " ++ reprV v
  | (k, v) :: t => "'" ++ k ++ "': " ++ reprV v ++ ", " ++ reprEntries t

/-- Comma-separated repr of list items. -/
def reprItems : List JVal → String
  | [] => ""
  | [v] => reprV v
  | v :: t => reprV v ++ ", " ++ reprItems t
end

/-- Python str(v) on a modelled value. -/
def pyStr (v : JVal) : String :=
  match v with
  | .jnull => "None"
  | .jstr s => s
  | .jint n => toString n
  | .jbool b => if b then "True" else "False"
  | .jdict l => reprV (.jdict l)
  | .jlist l => reprV (.jlist l)

/-! Character-level helpers.  All string manipulation of the script is done
on the underlying character lists with structural functions, so that every
definition evaluates inside the kernel. -/

/-- Whitespace for str.strip() and str.split(): ASCII whitespace plus the
no-break space, the whitespace characters occurring in this data. -/
def isWsChar (c : Char) : Bool :=
  c = ' ' || c = '\t' || c = '\n' || c = '\x0d' || c = '\x0b' || c = '\x0c' || c = '\xa0'

/-- Python str.strip() on a character list. -/
def stripChars (l : List Char) : List Char :=
  ((l.dropWhile isWsChar).reverse.dropWhile isWsChar).reverse

/-- Python str.strip(). -/
def pyStrip (s : String) : String := ⟨stripChars s.data⟩

/-- Decimal digit test (ASCII, by code point), as Python str.isdigit on
this data. -/
def isDigitChar (c : Char) : Bool := 48 ≤ c.toNat && c.toNat ≤ 57

/-- Python s.isdigit(): nonempty and all digits. -/
def isDigitStr (s : String) : Bool := !s.data.isEmpty && s.data.all isDigitChar

/-- Numeric value of a digit list (most significant first). -/
def digitsVal (l : List Char) : Nat :=
  l.foldl (fun acc c => acc * 10 + (c.toNat - 48)) 0

/-- Python str.lower() for ASCII letters and the Spanish accented letters
appearing in the folding tables of the script. -/
def lowerChar (c : Char) : Char :=
  if 'A' ≤ c && c ≤ 'Z' then Char.ofNat (c.toNat + 32)
  else if c = 'Á' then 'á' else if c = 'É' then 'é' else if c = 'Í' then 'í'
  else if c = 'Ó' then 'ó' else if c = 'Ú' then 'ú' else if c = 'Ñ' then 'ñ'
  else if c = 'Ü' then 'ü' else c

/-- Python str.upper() for the same character set. -/
def upperChar (c : Char) : Char :=
  if 'a' ≤ c && c ≤ 'z' then Char.ofNat (c.toNat - 32)
  else if c = 'á' then 'Á' else if c = 'é' then 'É' else if c = 'í' then 'Í'
  else if c = 'ó' then 'Ó' else if c = 'ú' then 'Ú' else if c = 'ñ' then 'Ñ'
  else if c = 'ü' then 'Ü' else c

/-- Python str.lower(). -/
def pyLower (s : String) : String := ⟨s.data.map lowerChar⟩

/-- Python str.upper(). -/
def pyUpper (s : String) : String := ⟨s.data.map upperChar⟩

/-- Split a character list into whitespace-separated words, as str.split(). -/
def wordsAux (l : List Char) (acc : List Char) : List (List Char) :=
  match l with
  | [] => if acc.isEmpty then [] else [acc.reverse]
  | c :: t =>
      if isWsChar c then
        if acc.isEmpty then wordsAux t [] else acc.reverse :: wordsAux t []
      else wordsAux t (c :: acc)

/-- Python s.split() (no separator argument). -/
def pyWords (s : String) : List String := (wordsAux s.data []).map (fun w => ⟨w⟩)

/-- Join strings with a separator, as Python sep.join(parts). -/
def joinWith (sep : String) : List String → String
  | [] => ""
  | [w] => w
  | w :: t => w ++ sep ++ joinWith sep t

/-- Split a character list on a single-character separator, as s.split(sep). -/
def splitOnCharAux (sep : Char) (l : List Char) (acc : List Char) : List (List Char) :=
  match l with
  | [] => [acc.reverse]
  | c :: t => if c = sep then acc.reverse :: splitOnCharAux sep t [] else splitOnCharAux sep t (c :: acc)

/-- Python s.split(sep) for a one-character separator. -/
def pySplitOn (s : String) (sep : Char) : List String :=
  (splitOnCharAux sep s.data []).map (fun w => ⟨w⟩)

/-- Python s.replace(old, new) for one-character old and new. -/
def pyReplaceChar (s : String) (old new : Char) : String :=
  ⟨s.data.map (fun c => if c = old then new else c)⟩

/-- Python s.replace(old, "") for a one-character old: drops the character. -/
def pyEraseChar (s : String) (old : Char) : String :=
  ⟨s.data.filter (fun c => c ≠ old)⟩

/-- Lexicographic strict order on character lists by code point, which is
exactly how Python compares strings. -/
def lexLt : List Char → List Char → Bool
  | [], [] => false
  | [], _ :: _ => true
  | _ :: _, [] => false
  | a :: as, b :: bs =>
      if a < b then true
      else if b < a then false
      else lexLt as bs

/-- Python string strict comparison a < b. -/
def pyStrLt (a b : String) : Bool := lexLt a.data b.data

/-- Python string comparison a <= b. -/
def pyStrLe (a b : String) : Bool := !lexLt b.data a.data

/-- Python min() over a nonempty list of strings (empty list never occurs at
the call site, which guards with a nonemptiness test; the empty case is
mapped to the empty string). -/
def pyMinStr : List String → String
  | [] => ""
  | h :: t => t.foldl (fun a b => if pyStrLt b a then b else a) h

/-- Python `a or b` on strings (empty string is falsy). -/
def strOr (a b : String) : String := if a = "" then b else a

/-- Lookup in a string-to-string table (dict.get on a literal dict). -/
def strLookup (l : List (String × String)) (k : String) : Option String :=
  match l with
  | [] => none
  | (k', v) :: t => if k' = k then some v else strLookup t k

/-- Test whether needle is a prefix of hay. -/
def prefixOfChars : List Char → List Char → Bool
  | [], _ => true
  | _ :: _, [] => false
  | a :: as, b :: bs => a = b && prefixOfChars as bs

/-- Substring containment scan, as the Python `in` operator on strings. -/
def containsSubAux (needle : List Char) : List Char → Bool
  | [] => needle.isEmpty
  | c :: t => prefixOfChars needle (c :: t) || containsSubAux needle t

/-- Python `sub in s` on strings. -/
def strContains (s sub : String) : Bool := containsSubAux sub.data s.data

/-! Embedding of `_norm_key` (the canonical-key normalizer). -/

/-- Accent folding used by `_norm_key`: the script folds exactly the
lowercase letters a-acute through n-tilde. -/
def accentFoldChar (c : Char) : Char :=
  if c = 'á' then 'a' else if c = 'é' then 'e' else if c = 'í' then 'i'
  else if c = 'ó' then 'o' else if c = 'ú' then 'u' else if c = 'ñ' then 'n' else c

/-- Embeds `_norm_key`: lowercase, fold accents, turn hyphen and underscore
into spaces, collapse whitespace runs and trim (spelled, as in the source,
as a split followed by a single-space join). -/
def norm_key (s : String) : String :=
  let s1 := pyLower s
  let s2 : String := ⟨s1.data.map accentFoldChar⟩
  let s3 : String := ⟨s2.data.map (fun c => if c = '-' || c = '_' then ' ' else c)⟩
  joinWith " " (pyWords s3)

/-! Embedding of `to_yyyymmdd` (the date normalizer). -/

/-- Days in a month with the Gregorian leap rule, as datetime validates. -/
def daysInMonth (y m : Nat) : Nat :=
  if m = 2 then (if y % 4 = 0 && (y % 100 ≠ 0 || y % 400 = 0) then 29 else 28)
  else if m = 4 || m = 6 || m = 9 || m = 11 then 30 else 31

/-- Month or day component: one or two digits with value between 1 and hi,
which is what the strptime patterns for %m and %d accept. -/
def parseDatePart2 (p : String) (hi : Nat) : Option Nat :=
  if (p.data.length = 1 || p.data.length = 2) && p.data.all isDigitChar then
    let v := digitsVal p.data
    if 1 ≤ v && v ≤ hi then some v else none
  else none

/-- Year component: exactly four digits (the strptime %Y pattern), at least
year 1 (the datetime constructor rejects year 0). -/
def parseYear (p : String) : Option Nat :=
  if p.data.length = 4 && p.data.all isDigitChar then
    let v := digitsVal p.data
    if 1 ≤ v then some v else none
  else none

/-- One strptime format of the script: three components joined by sep, the
month always in the middle, year first or last, day validated against the
month length as the datetime constructor does. -/
def parseDateFmt (s : String) (sep : Char) (yearFirst : Bool) : Option (Nat × Nat × Nat) :=
  match pySplitOn s sep with
  | [p1, p2, p3] =>
      let ys := if yearFirst then p1 else p3
      let ds := if yearFirst then p3 else p1
      match parseYear ys, parseDatePart2 p2 12, parseDatePart2 ds 31 with
      | some y, some m, some d => if d ≤ daysInMonth y m then some (y, m, d) else none
      | _, _, _ => none
  | _ => none

/-- The format list of `to_yyyymmdd`, in source order:
%Y-%m-%d, %d/%m/%Y, %Y/%m/%d, %d-%m-%Y. -/
def strptimeFormats : List (Char × Bool) := [('-', true), ('/', false), ('/', true), ('-', false)]

/-- First format that parses wins, as the try/except loop in the source. -/
def tryStrptime (s : String) : List (Char × Bool) → Option (Nat × Nat × Nat)
  | [] => none
  | (sep, yf) :: rest =>
      match parseDateFmt s sep yf with
      | some r => some r
      | none => tryStrptime s rest

/-- Zero-padded decimal rendering of a natural number. -/
def padNat (width n : Nat) : String :=
  let s := toString n
  ⟨List.replicate (width - s.data.length) '0' ++ s.data⟩

/-- A decimal digit character. -/
def digitChar (n : Nat) : Char := Char.ofNat (48 + n)

/-- Two-digit zero-padded rendering (all months and days have at most two
digits). -/
def pad2Digits (n : Nat) : String := ⟨[digitChar (n / 10 % 10), digitChar (n % 10)]⟩

/-- Four-digit zero-padded rendering (the %Y pattern only ever yields years
of at most four digits). -/
def pad4Digits (n : Nat) : String :=
  ⟨[digitChar (n / 1000 % 10), digitChar (n / 100 % 10), digitChar (n / 10 % 10), digitChar (n % 10)]⟩

/-- strftime %Y%m%d of a parsed date (years below 1000 are rendered
zero-padded; the script only ever meets four-digit years). -/
def renderYmd (y m d : Nat) : String := pad4Digits y ++ pad2Digits m ++ pad2Digits d

/-- Embeds `to_yyyymmdd`: falsy input to empty string, eight digits pass
through, otherwise the first matching format of `strptimeFormats`, and empty
string when none matches. -/
def to_yyyymmdd (val : JVal) : String :=
  if !pyTruthy val then ""
  else
    let s := pyStrip (pyStr val)
    if s.data.length = 8 && isDigitStr s then s
    else
      match tryStrptime s strptimeFormats with
      | some (y, m, d) => renderYmd y m d
      | none => ""

/-- Embeds `is_valid_date`: empty is invalid, otherwise compare (string
comparison, code point lexicographic) against the threshold. -/
def is_valid_date (date_string : String) (min_date : String) : Bool :=
  if date_string = "" then false else pyStrLe min_date date_string

/-! Embedding of `normalize_ascii` (the ASCII normalizer). -/

/-- Punctuation folding: the explicit replaces of `normalize_ascii`
(dashes, curly quotes, ordinal indicators). -/
def punctFoldChar (c : Char) : Char :=
  if c = '–' then '-' else if c = '—' then '-'
  else if c = '“' then '"' else if c = '”' then '"'
  else if c = '’' then '\''
  else if c = 'º' then 'o' else if c = 'ª' then 'a'
  else c

/-- Enye folding, applied before the generic ASCII pass as in the source. -/
def enyeFoldChar (c : Char) : Char :=
  if c = 'ñ' then 'n' else if c = 'Ñ' then 'N' else c

/-- The NFKD decomposition followed by ascii-ignore, modelled for ASCII and
the accented Latin letters this data carries; any other non-ASCII character
is dropped, as ascii-ignore drops unconvertible characters. -/
def nfkdAsciiChar (c : Char) : List Char :=
  if c.toNat < 128 then [c]
  else if c = 'á' || c = 'à' || c = 'â' || c = 'ä' || c = 'ã' then ['a']
  else if c = 'é' || c = 'è' || c = 'ê' || c = 'ë' then ['e']
  else if c = 'í' || c = 'ì' || c = 'î' || c = 'ï' then ['i']
  else if c = 'ó' || c = 'ò' || c = 'ô' || c = 'ö' || c = 'õ' then ['o']
  else if c = 'ú' || c = 'ù' || c = 'û' || c = 'ü' then ['u']
  else if c = 'Á' || c = 'À' || c = 'Â' || c = 'Ä' || c = 'Ã' then ['A']
  else if c = 'É' || c = 'È' || c = 'Ê' || c = 'Ë' then ['E']
  else if c = 'Í' || c = 'Ì' || c = 'Î' || c = 'Ï' then ['I']
  else if c = 'Ó' || c = 'Ò' || c = 'Ô' || c = 'Ö' || c = 'Õ' then ['O']
  else if c = 'Ú' || c = 'Ù' || c = 'Û' || c = 'Ü' then ['U']
  else if c = 'ç' then ['c'] else if c = 'Ç' then ['C']
  else if c = 'ý' then ['y'] else if c = 'Ý' then ['Y']
  else []

/-- Replace every whitespace run by a single space (re.sub of whitespace-plus
with one space); the boolean argument records whether the previous kept
character closed a whitespace run. -/
def collapseWsAux : List Char → Bool → List Char
  | [], _ => []
  | c :: t, prevWs =>
      if isWsChar c then
        if prevWs then collapseWsAux t true else ' ' :: collapseWsAux t true
      else c :: collapseWsAux t false

/-- Embeds `normalize_ascii` on string input (on a None the source returns
the empty string and on a non-string it returns the value unchanged; both
cases are handled at the call sites of this embedding). -/
def normalize_ascii (text : String) : String :=
  let t1 : String := ⟨text.data.map punctFoldChar⟩
  let t2 : String := ⟨t1.data.map enyeFoldChar⟩
  let t3 : String := ⟨(t2.data.map nfkdAsciiChar).flatten⟩
  pyStrip ⟨collapseWsAux t3.data false⟩

/-- Embeds `normalize_row_text`: apply `normalize_ascii` to every string
value of the row, leave every other value alone. -/
def normalize_row_text (row : List (String × JVal)) : List (String × JVal) :=
  row.map (fun kv =>
    match kv with
    | (k, .jstr s) => (k, .jstr (normalize_ascii s))
    | (k, v) => (k, v))

/-! Small code-table mappers. -/

/-- Embeds `map_gender`: note that the matched cases return the Python
integers 1 and 2, not strings. -/
def map_gender (val : JVal) : JVal :=
  if !pyTruthy val then .jstr ""
  else
    let v := pyLower (pyStrip (pyStr val))
    if v = "m" || v = "male" || v = "masculino" || v = "hombre" then .jint 1
    else if v = "f" || v = "female" || v = "femenino" || v = "mujer" then .jint 2
    else .jstr ""

/-- Embeds `map_salutation`: dispatch on the integer result of `map_gender`. -/
def map_salutation (val : JVal) : String :=
  match map_gender val with
  | .jint 1 => "SR."
  | .jint 2 => "SRA."
  | _ => ""

/-- Embeds `BANK_CODE_MAP`. -/
def BANK_CODE_MAP : List (String × String) :=
  [("BCI", "16"), ("BICE", "28"), ("Banco de Chile", "1"), ("COOPEUCH", "672"),
   ("Banco Estado", "2"), ("Falabella", "51"), ("Ripley", "53"), ("Santander", "37"),
   ("Scotiabank", "14"), ("Security", "49"), ("Itau", "39"), ("BBVA", "504"),
   ("Consorcio", "55")]

/-- Embeds `map_bank_code`: exact match first, then a case-insensitive scan
in table order, then the cleaned name itself. -/
def map_bank_code (bank_name : JVal) : String :=
  if !pyTruthy bank_name then ""
  else
    let bank_clean := pyStrip (pyStr bank_name)
    match strLookup BANK_CODE_MAP bank_clean with
    | some code => code
    | none =>
        match BANK_CODE_MAP.find? (fun kv => pyLower bank_clean = pyLower kv.1) with
        | some kv => kv.2
        | none => bank_clean

/-- Embeds `COUNTRY_OF_BIRTH_MAP`. -/
def COUNTRY_OF_BIRTH_MAP : List (String × String) :=
  [("DE", "DEU"), ("AR", "ARG"), ("AU", "AUS"), ("AT", "AUT"), ("BS", "BHS"),
   ("BRB", "BRB"), ("BZ", "BLZ"), ("BO", "BOL"), ("BR", "BRA"), ("CL", "CHL"),
   ("CN", "CHN"), ("CO", "COL"), ("CR", "CRI"), ("DOM", "DOM"), ("EC", "ECU"),
   ("ES", "ESP"), ("US", "USA"), ("FR", "FRA"), ("GRC", "GRC"), ("GT", "GTM"),
   ("GY", "GUY"), ("HT", "HTI"), ("NL", "NLD"), ("HN", "HND"), ("EN", "IND"),
   ("IDN", "IDN"), ("ISR", "ISR"), ("IT", "ITA"), ("JM", "JAM"), ("JP", "JPN"),
   ("LV", "LVA"), ("MLT", "MLT"), ("MX", "MEX"), ("NI", "NIC"), ("NO", "NOR"),
   ("NZL", "NZL"), ("PAM", "PAN"), ("PY", "PRY"), ("PE", "PER"), ("PL", "POL"),
   ("PT", "PRT"), ("PR", "PRI"), ("RO", "ROU"), ("RU", "RUS"), ("SV", "SLV"),
   ("SE", "SWE"), ("CH", "CHE"), ("SR", "SUR"), ("TR", "TUR"), ("UA", "UKR"),
   ("VE", "VEN"), ("CU", "CUB"), ("HR", "HRV"), ("GB", "GBR")]

/-- Embeds `map_country_of_birth`: table lookup with pass-through default. -/
def map_country_of_birth (value : JVal) : String :=
  if !pyTruthy value then ""
  else
    let code := pyUpper (pyStrip (pyStr value))
    (strLookup COUNTRY_OF_BIRTH_MAP code).getD code

/-- Alphabetic test for the modelled character set, as str.isalpha. -/
def isAlphaChar (c : Char) : Bool :=
  ('A' ≤ c && c ≤ 'Z') || ('a' ≤ c && c ≤ 'z') ||
  !(nfkdAsciiChar c).isEmpty && c.toNat ≥ 128

/-- Embeds `_norm_country`: Chile synonyms to CL, two alphabetic characters
pass through uppercased, anything else truncates to its first two
characters. -/
def norm_country (value : JVal) : String :=
  if !pyTruthy value then ""
  else
    let v := pyUpper (pyStrip (pyStr value))
    if v = "CL" || v = "CH" || v = "CHILE" || v = "CHILENO" || v = "CHILENA" then "CL"
    else if v.data.length = 2 && v.data.all isAlphaChar then v
    else ⟨v.data.take 2⟩

/-- Embeds `map_contract_type_code`: keyword scan on the normalized text. -/
def map_contract_type_code (value : JVal) : String :=
  match value with
  | .jnull => ""
  | _ =>
      let s0 := pyStrip (pyLower (normalize_ascii (pyStr value)))
      let s : String := ⟨collapseWsAux s0.data false⟩
      if strContains s "indefinid" || s = "indef" || s = "permanente" || s = "permanent" || s = "p" then "P"
      else if strContains s "fijo" || strContains s "plazo" || strContains s "temporal" ||
              strContains s "fixed" || strContains s "term" || s = "t" then "T"
      else ""

/-- Embeds `convert_to_chl_code`. -/
def convert_to_chl_code (contract_type_code : String) : String :=
  if contract_type_code = "P" then "CHL-03"
  else if contract_type_code = "T" then "CHL-04"
  else ""

/-- Embeds `map_contract_type_status`. -/
def map_contract_type_status (contract_type_raw : JVal) : String :=
  if !pyTruthy contract_type_raw then ""
  else
    let c := pyLower (pyStrip (pyStr contract_type_raw))
    if c = "indefinido" then "1" else if c = "fijo" then "2" else ""

/-- Embeds `map_employee_category`. -/
def map_employee_category (mgmt_group_value : JVal) : String :=
  if !pyTruthy mgmt_group_value then ""
  else
    let c := pyUpper (pyStrip (pyStr mgmt_group_value))
    if c = "O" then "Individual Contributor" else "Management"

/-- Embeds `handle_null_date`: None or empty string to the default,
otherwise the normalized date with the default as fallback. -/
def handle_null_date (value : JVal) (default : String) : String :=
  match value with
  | .jnull => default
  | .jstr s => if s = "" then default else strOr (to_yyyymmdd value) default
  | _ => strOr (to_yyyymmdd value) default

/-! Exact decimal arithmetic backing Decimal(...) and float(...) parsing and
the 2-place formatting the script performs.  A parsed decimal is a sign, an
absolute mantissa, and the count of fractional digits. -/

/-- Sign, absolute mantissa and fractional digit count of a plain decimal
literal. -/
structure DecParsed where
  neg : Bool
  mantissa : Nat
  scale : Nat
deriving Inhabited

/-- Parse a plain decimal literal (optional sign, digits, at most one dot,
at least one digit), the common grammar of Decimal(...) and float(...) on
the cleaned strings of this script; exponent, infinity and nan forms are
outside the modelled value domain. -/
def decParseChars (l : List Char) : Option DecParsed :=
  let signAndRest : Bool × List Char :=
    match l with
    | '-' :: t => (true, t)
    | '+' :: t => (false, t)
    | _ => (false, l)
  match splitOnCharAux '.' signAndRest.2 [] with
  | [ip] =>
      if !ip.isEmpty && ip.all isDigitChar then some ⟨signAndRest.1, digitsVal ip, 0⟩ else none
  | [ip, fp] =>
      if (!ip.isEmpty || !fp.isEmpty) && ip.all isDigitChar && fp.all isDigitChar then
        some ⟨signAndRest.1, digitsVal (ip ++ fp), fp.length⟩
      else none
  | _ => none

/-- Division rounding half to even, the rounding of the .2f format. -/
def halfEvenDiv (a b : Nat) : Nat :=
  let q := a / b
  let r := a % b
  if 2 * r < b then q
  else if 2 * r > b then q + 1
  else if q % 2 = 0 then q else q + 1

/-- Format a parsed decimal with exactly two fractional digits (the sign is
kept even for a negative zero, as the .2f format does on Decimal). -/
def decFormat2 (p : DecParsed) : String :=
  let scaled := if p.scale ≤ 2 then p.mantissa * 10 ^ (2 - p.scale) else halfEvenDiv p.mantissa (10 ^ (p.scale - 2))
  (if p.neg then "-" else "") ++ toString (scaled / 100) ++ "." ++ padNat 2 (scaled % 100)

/-- Python float(...) on a string: strip, then parse the plain decimal
grammar (exact; the binary rounding of the float type is not modelled, and
the theorems below only rely on parses whose value the float type represents
faithfully, in particular zero tests). -/
def pyFloatParse (s : String) : Option DecParsed := decParseChars (stripChars s.data)

/-- Last index of a character in a list, as str.rfind. -/
def rfindIdx (l : List Char) (c : Char) : Option Nat :=
  match l.reverse.findIdx? (· = c) with
  | some i => some (l.length - 1 - i)
  | none => none

/-- The locale resolution step of `format_decimal_two_places` on the
space-free string: with both separators present the rightmost wins as
decimal separator; a lone comma is decimal only when unique with at most two
characters after it. -/
def decimalLocaleFix (s_norm : String) : String :=
  let l := s_norm.data
  if l.contains ',' && l.contains '.' then
    if (rfindIdx l ',').getD 0 > (rfindIdx l '.').getD 0 then
      pyReplaceChar (pyEraseChar s_norm '.') ',' '.'
    else pyEraseChar s_norm ','
  else if l.contains ',' then
    if (l.count ',' = 1) && ((splitOnCharAux ',' l []).getLast?.getD []).length ≤ 2 then
      pyReplaceChar s_norm ',' '.'
    else pyEraseChar s_norm ','
  else s_norm

/-- The character strip of `format_decimal_two_places`: keep digits, dots
and minus signs. -/
def cleanDecimalChars (s : String) : String :=
  ⟨s.data.filter (fun c => isDigitChar c || c = '.' || c = '-')⟩

/-- Embeds `format_decimal_two_places`. -/
def format_decimal_two_places (value : JVal) : String :=
  match value with
  | .jnull => ""
  | .jbool b =>
      let n : Int := if b then 1 else 0
      match decParseChars (toString n).data with
      | some p => decFormat2 p
      | none => toString n
  | .jint n =>
      match decParseChars (toString n).data with
      | some p => decFormat2 p
      | none => toString n
  | v =>
      let s := pyStrip (pyStr v)
      if s = "" then ""
      else
        let s_norm0 := pyEraseChar s ' '
        let s_norm := decimalLocaleFix s_norm0
        let s_clean := cleanDecimalChars s_norm
        if s_clean = "" || s_clean = "." || s_clean = "-" || s_clean = "-." || s_clean = ".-" then s
        else
          match decParseChars s_clean.data with
          | some p => decFormat2 p
          | none => s

/-! Embedding of the field resolvers `get_from_attrs` and `find_any`. -/

/-- Scan of the entries of a candidate mapping: first entry whose normalized
key is in the normalized alias set wins (dict iteration order is insertion
order). -/
def searchEntries (keys : List String) : List (String × JVal) → Option JVal
  | [] => none
  | (k, v) :: t =>
      if (keys.map norm_key).contains (norm_key k) then some v else searchEntries keys t

/-- The inner `_search` and `_from` helpers: non-dict candidates yield
nothing (the isinstance guard), dict candidates are scanned. -/
def attrsSearch (keys : List String) (dct : JVal) : Option JVal :=
  match dct with
  | .jdict l => searchEntries keys l
  | _ => none

/-- Embeds `get_from_attrs`: search the job-level and employee-level custom
attribute mappings in the order selected by prefer_job, testing absence by
is-None so that present falsy values are kept; date results go through the
date normalizer, other results are stringified and trimmed, and a miss is
the empty string. -/
def get_from_attrs (emp : PyDict) (keys : List String) (prefer_job : Bool) (date : Bool) :
    Except String String := do
  let job := pyOr (alistGet emp "current_job" .jnull) (.jdict [])
  let job_ca := pyOr (← pyGet job "custom_attributes" .jnull) (.jdict [])
  let emp_ca := pyOr (alistGet emp "custom_attributes" .jnull) (.jdict [])
  let val :=
    if prefer_job then
      match attrsSearch keys job_ca with
      | some v => some v
      | none => attrsSearch keys emp_ca
    else
      match attrsSearch keys emp_ca with
      | some v => some v
      | none => attrsSearch keys job_ca
  if date then
    pure (to_yyyymmdd (val.getD .jnull))
  else
    pure (match val with
          | none => ""
          | some v => pyStrip (pyStr v))

/-- Embeds `find_any`: the same scan across four locations in fixed order
(employee root, employee custom attributes, current job root, current job
custom attributes), first hit wins. -/
def find_any (emp : PyDict) (aliases : List String) (date : Bool) : Except String String := do
  let v1 := attrsSearch aliases (.jdict emp)
  let v2 :=
    match v1 with
    | some _ => v1
    | none => attrsSearch aliases (pyOr (alistGet emp "custom_attributes" .jnull) (.jdict []))
  let v3 :=
    match v2 with
    | some _ => v2
    | none => attrsSearch aliases (pyOr (alistGet emp "current_job" .jnull) (.jdict []))
  let v4 ←
    match v3 with
    | some _ => pure v3
    | none => do
        let cj := pyOr (alistGet emp "current_job" .jnull) (.jdict [])
        let ca ← pyGet cj "custom_attributes" .jnull
        pure (attrsSearch aliases (pyOr ca (.jdict [])))
  let v :=
    match v4 with
    | none => ""
    | some w => pyStrip (pyStr w)
  pure (if date then to_yyyymmdd (.jstr v) else v)

/-- Embeds `normalize_workforce_type`: a numeric Workforce Type passes
through, otherwise the worker-type text maps GASTO-like to 1 and COSTO-like
to 2. -/
def normalize_workforce_type (emp : PyDict) : Except String String := do
  let raw_num ← get_from_attrs emp ["Workforce Type"] true false
  if isDigitStr (pyStrip raw_num) then pure (pyStrip raw_num)
  else do
    let raw_txt ← get_from_attrs emp ["Tipo de Trabajador", "Worker Type"] true false
    let s := pyUpper (pyStrip raw_txt)
    if s = "GASTO" || s = "GASTOS" then pure "1"
    else if s = "COSTO" || s = "COSTOS" then pure "2"
    else pure ""

/-- Embeds `TERMINATION_REASON_MAP`. -/
def TERMINATION_REASON_MAP : List (String × String) :=
  [("renuncia", "1"), ("necesidades_empresa", "2"), ("mutuo_acuerdo", "3"),
   ("vencimiento_plazo", "7"), ("fin_servicio", "7"), ("muerte", "6"),
   ("no_concurrencia", "99"), ("incumplimiento", "99"), ("falta_probidad", "99"),
   ("transferencia", "4"), ("retiro", "5"), ("divesture", "2"), ("reset_entry", "95")]

/-- Embeds `determine_exit_reason`: the termination reason of the current
job, lowercased and trimmed, looked up in the table; a miss is a Python
None.  The employee record and the computed company exit date are received
and ignored, as in the source. -/
def determine_exit_reason (emp : PyDict) (job : JVal) (company_exit_date : String) :
    Except String JVal := do
  let termination_reason ← pyGet job "termination_reason" (.jstr "")
  let clean := pyStrip (pyLower (pyStr termination_reason))
  pure (match strLookup TERMINATION_REASON_MAP clean with
        | some code => .jstr code
        | none => .jnull)

/-- Result record of `analyze_employee_status`. -/
structure EmployeeStatus where
  is_active : Bool
  end_date : JVal
  destination : String
deriving Inhabited

/-- Embeds `analyze_employee_status`: a truthy current-job end date sends
the employee to the filtered output, anything else to the active output. -/
def analyze_employee_status (emp : PyDict) : Except String EmployeeStatus := do
  let job := pyOr (alistGet emp "current_job" .jnull) (.jdict [])
  let end_date ← pyGet job "end_date" .jnull
  if pyTruthy end_date then
    pure ⟨false, end_date, "filtered"⟩
  else
    pure ⟨true, .jnull, "active"⟩

/-- Result record of `analyze_employee_contracts` (the debug block of the
source is kept as the two last fields). -/
structure ContractAnalysis where
  oldest_start_date : String
  current_contract_date : String
  total_contracts : Nat
  has_multiple_contracts : Bool
deriving Inhabited

/-- The loop of `analyze_employee_contracts` over the jobs array: collect
the normalized start date of every job whose raw start date is truthy with
nonempty strip and normalizes successfully; a non-string truthy start date
raises (the .strip() call), a non-dict job raises (the .get call). -/
def collectJobDates : List JVal → Except String (List String)
  | [] => .ok []
  | job :: rest => do
      let start_date ← pyGet job "start_date" .jnull
      if pyTruthy start_date then do
        let s ← match start_date with
                | .jstr s => Except.ok s
                | _ => .error "AttributeError"
        if pyStrip s ≠ "" then
          let formatted := to_yyyymmdd start_date
          if formatted ≠ "" then do
            let restDates ← collectJobDates rest
            pure (formatted :: restDates)
          else collectJobDates rest
        else collectJobDates rest
      else collectJobDates rest

/-- Embeds `analyze_employee_contracts`: the oldest parseable start date
among the entries of the jobs array, with the normalized current-job start
date as fallback.  Iterating a truthy non-list jobs value raises, and so
does taking len of a value with no length. -/
def analyze_employee_contracts (emp : PyDict) : Except String ContractAnalysis := do
  let current_job := alistGet emp "current_job" (.jdict [])
  let jobs := alistGet emp "jobs" (.jlist [])
  let current_contract_date := to_yyyymmdd (← pyGet current_job "start_date" .jnull)
  let all_dates ←
    if pyTruthy jobs then
      match jobs with
      | .jlist l => collectJobDates l
      | .jdict _ => .error "AttributeError"
      | .jstr _ => .error "AttributeError"
      | _ => .error "TypeError"
    else pure []
  let oldest_start_date := if !all_dates.isEmpty then pyMinStr all_dates else ""
  let total ← pyLen jobs
  pure ⟨strOr oldest_start_date current_contract_date, current_contract_date,
        total, decide (total > 1)⟩

/-- The custom-attribute fallback of `nationality_codes`. -/
def nationality_codes_ca (ca : JVal) : Except String (String × String × String) := do
  let ca1 := pyOr (← pyGet ca "Nationality 1" .jnull) (← pyGet ca "nationality_1" .jnull)
  let ca2 := pyOr (← pyGet ca "Nationality 2" .jnull) (← pyGet ca "nationality_2" .jnull)
  let ca3 := pyOr (← pyGet ca "Nationality 3" .jnull) (← pyGet ca "nationality_3" .jnull)
  pure (norm_country ca1, norm_country ca2, norm_country ca3)

/-- The single-nationality fallback of `nationality_codes`. -/
def nationality_codes_nat (emp : PyDict) (ca : JVal) : Except String (String × String × String) :=
  match alistGet emp "nationality" .jnull with
  | .jstr s =>
      if pyStrip s ≠ "" then .ok (norm_country (.jstr s), "", "")
      else nationality_codes_ca ca
  | _ => nationality_codes_ca ca

/-- Embeds `nationality_codes`: the explicit nationalities list wins
entirely when present and nonempty (normalized, falsy entries dropped,
padded to three slots), else the single nationality string, else the three
named custom attributes. -/
def nationality_codes (emp : PyDict) (ca : JVal) : Except String (String × String × String) :=
  match alistGet emp "nationalities" .jnull with
  | .jlist l =>
      if !l.isEmpty then
        let codes0 := (l.filter (fun x => pyStrip (pyStr x) ≠ "")).map norm_country
        let codes := codes0.filter (fun c => c ≠ "")
        match codes ++ ["", "", ""] with
        | c0 :: c1 :: c2 :: _ => .ok (c0, c1, c2)
        | _ => .ok ("", "", "")
      else nationality_codes_nat emp ca
  | _ => nationality_codes_nat emp ca

/-! Embedding of `get_local_pay_level_best`, the escalating resolver for the
Local Pay Level field. -/

/-- Validity test of `get_local_pay_level_best`: a non-None value whose
strip is nonempty, is not the inapplicable sentinel, and is longer than nine
characters. -/
def lpl_is_valid (v : JVal) : Bool :=
  match v with
  | .jnull => false
  | _ =>
      let s := pyStrip (pyStr v)
      !(s = "") && pyUpper s ≠ "NOT_APPLICABLE" && decide (s.data.length > 9)

/-- The inner `_norm_key` of `get_local_pay_level_best`: no-break space to
plain space, then the shared normalization. -/
def lpl_norm_key (s : String) : String := norm_key (pyReplaceChar s '\xa0' ' ')

/-- Entry scan against the fixed target key of the local-pay-level
resolver. -/
def lplSearchEntries : List (String × JVal) → Option JVal
  | [] => none
  | (k, v) :: t =>
      if lpl_norm_key k = lpl_norm_key "Local Pay Level" then some v else lplSearchEntries t

/-- The `_get_from` helper: scan a dict for the target key, nothing on a
non-dict. -/
def lpl_get_from (dct : JVal) : Option JVal :=
  match dct with
  | .jdict l => lplSearchEntries l
  | _ => none

/-- Stage 3 of the resolver: walk the jobs array keeping the valid value of
the job with the most recent normalized start date, or the first valid value
when no date is available. -/
def lpl_jobs_best : List JVal → String → String → Except String String
  | [], best, _ => .ok best
  | jb :: rest, best, best_date => do
      let ca := pyOr (← pyGet (pyOr jb (.jdict [])) "custom_attributes" .jnull) (.jdict [])
      match lpl_get_from ca with
      | some vv =>
          if lpl_is_valid vv then do
            let sv ← pyGet (pyOr jb (.jdict [])) "start_date" .jnull
            let d := if pyTruthy sv then to_yyyymmdd sv else ""
            if d ≠ "" && (best_date = "" || pyStrLt best_date d) then
              lpl_jobs_best rest (pyStrip (pyStr vv)) d
            else if best = "" then
              lpl_jobs_best rest (pyStrip (pyStr vv)) best_date
            else lpl_jobs_best rest best best_date
          else lpl_jobs_best rest best best_date
      | none => lpl_jobs_best rest best best_date

mutual
/-- Stage 4 deep scan: collect, in depth-first pre-order, the stripped valid
values found under the target key anywhere in the structure. -/
def lpl_walkVal : JVal → List String
  | .jdict l =>
      (match lplSearchEntries l with
       | some val => if lpl_is_valid val then [pyStrip (pyStr val)] else []
       | none => []) ++ lpl_walkEntries l
  | .jlist l => lpl_walkItems l
  | _ => []

/-- Deep scan over dict entry values. -/
def lpl_walkEntries : List (String × JVal) → List String
  | [] => []
  | (_, v) :: t => lpl_walkVal v ++ lpl_walkEntries t

/-- Deep scan over list items. -/
def lpl_walkItems : List JVal → List String
  | [] => []
  | v :: t => lpl_walkVal v ++ lpl_walkItems t
end

/-- Candidate score of the deep scan, scaled by ten to stay integral: three
points (thirty here) for the known prefix, plus length capped at sixty (six
here, scaled). -/
def lpl_score (val : String) : Nat :=
  (if prefixOfChars "CL_".data val.data then 30 else 0) + min val.data.length 60

/-- First candidate of maximal score, which is what a stable descending sort
followed by taking the head selects. -/
def lpl_pickBest : List String → String → String
  | [], best => best
  | c :: t, best => if lpl_score c > lpl_score best then lpl_pickBest t c else lpl_pickBest t best

/-- Best deep-scan candidate, if any. -/
def lpl_best_candidate : List String → Option String
  | [] => none
  | c :: t => some (lpl_pickBest t c)

/-- Word-character test of the regex word boundary. -/
def isWordChar (c : Char) : Bool := isDigitChar c || isAlphaChar c || c = '_'

/-- Run character of the regex pattern: uppercase letter or digit. -/
def isUpperAlnum (c : Char) : Bool := isDigitChar c || ('A' ≤ c && c ≤ 'Z')

/-- Matches of the pattern CL underscore followed by at least seven
uppercase alphanumerics between word boundaries, in scan order.  No match
can begin inside a matched span (every character there is a word character),
so continuing the scan one character at a time lists exactly the findall
matches. -/
def clMatchesAux : List Char → Bool → List String
  | [], _ => []
  | c :: rest, prevWord =>
      (if c = 'C' && !prevWord then
        match rest with
        | 'L' :: '_' :: tail =>
            let run := tail.takeWhile isUpperAlnum
            if run.length ≥ 7 &&
               (match tail.drop run.length with
                | [] => true
                | a :: _ => !isWordChar a) then
              ["CL_" ++ (⟨run⟩ : String)]
            else []
        | _ => []
      else []) ++ clMatchesAux rest (isWordChar c)

/-- findall of the local-pay-level regex on one string. -/
def clMatches (s : String) : List String := clMatchesAux s.data false

mutual
/-- Stage 6 scan: regex matches over the string form of every leaf of the
structure, in depth-first order. -/
def find_any_string_val : JVal → List String
  | .jdict l => find_any_string_entries l
  | .jlist l => find_any_string_items l
  | v => clMatches (pyStr v)

/-- Stage 6 scan over dict entry values. -/
def find_any_string_entries : List (String × JVal) → List String
  | [] => []
  | (_, v) :: t => find_any_string_val v ++ find_any_string_entries t

/-- Stage 6 scan over list items. -/
def find_any_string_items : List JVal → List String
  | [] => []
  | v :: t => find_any_string_val v ++ find_any_string_items t
end

/-- Embeds `get_local_pay_level_best`: the six escalating stages, each
short-circuiting on the first valid hit. -/
def get_local_pay_level_best (emp : PyDict) : Except String String := do
  let job := pyOr (alistGet emp "current_job" .jnull) (.jdict [])
  let job_ca := pyOr (← pyGet job "custom_attributes" .jnull) (.jdict [])
  let v1 := (lpl_get_from job_ca).getD .jnull
  if lpl_is_valid v1 then return pyStrip (pyStr v1)
  let emp_ca := pyOr (alistGet emp "custom_attributes" .jnull) (.jdict [])
  let v2 := (lpl_get_from emp_ca).getD .jnull
  if lpl_is_valid v2 then return pyStrip (pyStr v2)
  let jobsv := pyOr (alistGet emp "jobs" .jnull) (.jlist [])
  let best ←
    match jobsv with
    | .jlist l => lpl_jobs_best l "" ""
    | .jdict _ => .error "AttributeError"
    | .jstr _ => .error "AttributeError"
    | _ => .error "TypeError"
  if best ≠ "" then return best
  match lpl_best_candidate (lpl_walkVal (.jdict emp)) with
  | some bv => return bv
  | none => do
    let g1 ← pyGet job_ca "GRIP Position" .jnull
    let gv ←
      if pyTruthy g1 then pure g1
      else do
        let g2 ← pyGet emp_ca "GRIP Position" .jnull
        pure (pyOr g2 (.jstr ""))
    let grip ←
      match gv with
      | .jstr s => pure (pyStrip s)
      | _ => Except.error "AttributeError"
    if grip ≠ "" then
      let derived := "CL_" ++ pyEraseChar grip '-'
      if lpl_is_valid (.jstr derived) then return derived
    match find_any_string_val (.jdict emp) with
    | h :: _ => return h
    | [] => return ""

/-! Embedding of `build_employee_row`, the row builder. -/

/-- Method call v.strip(): only strings have it. -/
def pyStripMethod (v : JVal) : Except String String :=
  match v with
  | .jstr s => .ok (pyStrip s)
  | _ => .error "AttributeError"

/-- Method call v.lower(): only strings have it. -/
def pyLowerMethod (v : JVal) : Except String String :=
  match v with
  | .jstr s => .ok (pyLower s)
  | _ => .error "AttributeError"

/-- Python sep.join(values): every element must be a string. -/
def pyJoinStrs (sep : String) (vs : List JVal) : Except String String := do
  let parts ← vs.mapM (fun v =>
    match v with
    | .jstr s => Except.ok s
    | _ => Except.error "TypeError")
  pure (joinWith sep parts)

/-- Embeds `map_contract_status_code`: 0 with an exit date, 1 for an
inactive status, 3 otherwise.  The status field is lowercased before the
exit-date test, so a non-string status raises even for terminated
employees. -/
def map_contract_status_code (emp : PyDict) : Except String String := do
  let job := pyOr (alistGet emp "current_job" .jnull) (.jdict [])
  let end_date ← pyGet job "end_date" .jnull
  let status ← pyLowerMethod (alistGet emp "status" (.jstr ""))
  if pyTruthy end_date then pure "0"
  else if status = "inactivo" || status = "inactive" || status = "suspenso" || status = "suspended" then pure "1"
  else pure "3"

/-- The company exit date computation of the row builder: the normalized
current-job end date, with the no-exit sentinel as fallback. -/
def company_exit_date_of (job : JVal) : Except String String := do
  let e ← pyGet job "end_date" .jnull
  pure (strOr (to_yyyymmdd e) "99991231")

/-- The Target Incentive Amount computation of the row builder: absent or
zero-valued raw input becomes the inapplicable sentinel, a parseable number
is formatted to two places, anything else is kept stripped. -/
def target_incentive_amount_of (emp : PyDict) : Except String String := do
  let tia_raw ← get_from_attrs emp ["Target Incentive Amount"] true false
  if tia_raw = "" then pure "NOT_APPLICABLE"
  else
    match pyFloatParse tia_raw with
    | some p => if p.mantissa = 0 then pure "NOT_APPLICABLE" else pure (decFormat2 p)
    | none => pure (pyStrip tia_raw)

/-- The Base Pay computation of the row builder: strip, drop commas, strip
non-numeric characters, format to two places, with the cleaned string as
fallback on a parse failure. -/
def base_pay_of (base_pay_raw : String) : String :=
  if base_pay_raw = "" then ""
  else
    let s := pyEraseChar (pyStrip base_pay_raw) ','
    let s2 := cleanDecimalChars s
    match decParseChars s2.data with
    | some p => decFormat2 p
    | none => s2

/-- The Total Target Cash computation of the row builder: the same locale
fix and clean as the decimal normalizer, but sentinel leftovers give the
empty string and a parse failure gives the stripped raw value. -/
def total_target_cash_of (total_target_cash_raw : String) : String :=
  if total_target_cash_raw = "" then ""
  else
    let s_raw := pyStrip total_target_cash_raw
    let s0 := pyEraseChar s_raw ' '
    let s1 := decimalLocaleFix s0
    let s2 := cleanDecimalChars s1
    if s2 = "" || s2 = "." || s2 = "-" || s2 = "-." || s2 = ".-" then ""
    else
      match decParseChars s2.data with
      | some p => decFormat2 p
      | none => s_raw

/-- The locals of `build_employee_row` that feed the output row.  Fields
whose Python local is certainly a string are String here; fields that may
hold a raw payload value are JVal.  Locals that are plain aliases of
another local (service date, the three date fields copying the company
entry date, the international name fields) share the slot of the value they
copy. -/
structure Fields where
  dni : String
  gid : JVal
  surname : String
  first_name_first : String
  s2field : JVal
  arist_title : String
  gender : JVal
  dob : String
  nat1 : String
  nat2 : String
  nat3 : String
  highest_edu : String
  contract_type_raw : String
  contract_type_code : String
  contract_status : String
  contractual_weekly : String
  company_entry_date : String
  date_contract_status : String
  entry_reason : JVal
  company_exit_date : String
  exit_reason : JVal
  workforce_type : String
  mgmt_group : String
  date_mgmt_group : String
  are : String
  loc_short : JVal
  in_company_mgr : String
  org_code : String
  tech_pmp_flag : String
  gpm_status : String
  place_action : JVal
  tax_country : String
  tax_state : String
  addr1 : JVal
  addr2 : JVal
  addr3 : JVal
  city : JVal
  statefield : String
  country_home : String
  postal_code : String
  incentive_payment_type : String
  cost_center : JVal
  functional_area : String
  country_region : JVal
  hr_service_area : String
  local_pay_level : String
  base_pay : String
  target_incentive_amount : String
  currency : JVal
  local_job_title : String
  date_local_job_title : String
  depth_structure : String
  date_gpm_status : String
  gpm_exit_status : String
  date_base_pay : String
  date_target_incentive_amount : String
  global_cost_center : String
  preferred_surname : String
  eligibility_comp : String
  grip_position : String
  sps_elig : String
  date_sps_elig : String
  total_target_cash : String
  date_total_target_cash : String
  private_email : JVal
  private_mobile : JVal
  base_salary : String
  date_base_salary : String
  fixed_allowances : String
  date_fixed_allowance : String
  job_region : JVal
  finance_company_code : String
  currency_payroll : String
  lti_elig : String
  date_lti_elig : String
  bank_country : String
  bank_code : String
  bank_control_key : String
  account_number : JVal
  iban : String
  payroll_area : String
  termination_date : String
  last_date_worked : String
  position : String
  legal_entity : String
  employee_group : String
  employee_category : String
  time_mgmt_status : String
  employee_subgroup : String
  pay_scale_type : String
  pay_scale_area : String
  pay_scale_group : String
  country_of_birth : String
  salutation : String
  line_manager : String
  successfactors_id : JVal

/-- Computes every local of `build_employee_row` in source order; an
exception anywhere aborts the whole row, as in Python. -/
def build_fields (emp : PyDict) : Except String Fields := do
  let cav := pyOr (alistGet emp "custom_attributes" .jnull) (.jdict [])
  let job := pyOr (alistGet emp "current_job" .jnull) (.jdict [])
  let job_ca := pyOr (← pyGet job "custom_attributes" .jnull) (.jdict [])
  let dniv := pyOr (alistGet emp "dni" .jnull) (alistGet emp "document_number" (.jstr ""))
  let dni_raw ←
    match dniv with
    | .jstr s => pure (pyEraseChar s '.')
    | _ => Except.error "AttributeError"
  let dni :=
    if dni_raw.data.contains '-' then
      match pySplitOn dni_raw '-' with
      | p0 :: p1 :: _ => p0 ++ p1
      | _ => dni_raw
    else dni_raw
  let first_name ← pyStripMethod (alistGet emp "first_name" (.jstr ""))
  let first_name_first := if first_name ≠ "" then (pyWords first_name).headD "" else ""
  let s1v := pyOr (alistGet emp "surname" .jnull) (alistGet emp "last_name" (.jstr ""))
  let s2v := alistGet emp "second_surname" (.jstr "")
  let surname := pyStrip (← pyJoinStrs " " ([s1v, s2v].filter pyTruthy))
  let arist_title ← pyStripMethod (pyOr (← pyGet cav "Title" .jnull) (.jstr ""))
  let gender := map_gender (alistGet emp "gender" .jnull)
  let dob := to_yyyymmdd (pyOr (alistGet emp "date_of_birth" .jnull)
      (pyOr (alistGet emp "birth_date" .jnull) (alistGet emp "birthday" .jnull)))
  let nats ← nationality_codes emp cav
  let he1 ← get_from_attrs emp ["Highest Level of Education", "Education Level", "Nivel educacional"] false false
  let highest_edu ←
    if he1 ≠ "" then pure he1
    else find_any emp ["Highest Level of Education", "Education Level", "Nivel educacional"] false
  let ct1 ← get_from_attrs emp ["Contract Type", "Tipo de contrato"] true false
  let contract_type_raw ←
    if ct1 ≠ "" then pure ct1
    else do
      let cv ← pyGet job "contract_type" .jnull
      pure (pyStrip (pyStr (pyOr cv (.jstr ""))))
  let contract_type_code := map_contract_type_code (.jstr contract_type_raw)
  let contract_status ← map_contract_status_code emp
  let cw0 ← pyGet job "weekly_hours" .jnull
  let cw1 := pyStrip (pyStr (pyOr cw0 (.jstr "")))
  let contractual_weekly :=
    if cw1 ≠ "" then
      match pyFloatParse (pyReplaceChar cw1 ',' '.') with
      | some p => decFormat2 p
      | none => cw1
    else cw1
  let contract_analysis ← analyze_employee_contracts emp
  let company_entry_date := contract_analysis.oldest_start_date
  let date_contract_status := to_yyyymmdd (← pyGet job "start_date" .jnull)
  let er1 ← pyGet job "entry_reason" .jnull
  let entry_reason ←
    if pyTruthy er1 then pure er1
    else do
      let er2 ← get_from_attrs emp ["Entry Reason", "Razón de entrada"] true false
      pure (JVal.jstr er2)
  let company_exit_date ← company_exit_date_of job
  let exit_reason ← determine_exit_reason emp job company_exit_date
  let workforce_type ← normalize_workforce_type emp
  let mgmt_group ← get_from_attrs emp ["Management Group"] true false
  let date_senior_mgmt ← get_from_attrs emp ["Date Management group"] true true
  let date_mgmt_group ←
    if date_senior_mgmt ≠ "" && date_senior_mgmt ≠ "99991231" then pure date_senior_mgmt
    else do pure (to_yyyymmdd (← pyGet job "start_date" .jnull))
  let are ← get_from_attrs emp ["ARE"] true false
  let ls1 ← get_from_attrs emp ["Location / Office (short name)"] true false
  let loc_short := if ls1 ≠ "" then JVal.jstr ls1 else alistGet emp "office_short_name" (.jstr "")
  let in_company_mgr ← get_from_attrs emp ["In-company Manager", "Line Manager"] true false
  let org_code ← get_from_attrs emp ["OrgCode"] true false
  let tech_pmp_flag ← get_from_attrs emp ["Technical PMP Flag"] true false
  let gpm_status ← get_from_attrs emp ["GPM Status"] true false
  let pa1 ← get_from_attrs emp ["Country/Region - Place of Action"] true false
  let place_action := if pa1 ≠ "" then JVal.jstr pa1 else alistGet emp "country_code" (.jstr "")
  let tax_country ← get_from_attrs emp ["Tax Country/Region"] true false
  let tax_state ← get_from_attrs emp ["Tax Country/Region State"] true false
  let a1 ← get_from_attrs emp ["Address 1"] false false
  let addr1 := if a1 ≠ "" then JVal.jstr a1
    else pyOr (alistGet emp "address" (.jstr "")) (alistGet emp "address_line1" (.jstr ""))
  let a2 ← get_from_attrs emp ["Address 2"] false false
  let addr2 := if a2 ≠ "" then JVal.jstr a2 else alistGet emp "address_line2" (.jstr "")
  let a3 ← get_from_attrs emp ["Address 3"] false false
  let addr3 := if a3 ≠ "" then JVal.jstr a3 else alistGet emp "address_line3" (.jstr "")
  let city := alistGet emp "district" (.jstr "")
  let statefield ← get_from_attrs emp ["Tax Country/Region State"] true false
  let country_home ← get_from_attrs emp ["Country/Region - Home Address"] true false
  let postal_code ← get_from_attrs emp ["Postal Code", "Código Postal"] false false
  let incentive_payment_type ← get_from_attrs emp ["Incentive Payment Type"] true false
  let cc1 ← get_from_attrs emp ["Cost Center"] true false
  let cost_center ←
    if cc1 ≠ "" then pure (JVal.jstr cc1)
    else pyGet (alistGet emp "current_job" (.jdict [])) "cost_center" (.jstr "")
  let functional_area ← get_from_attrs emp ["Functional Area"] true false
  let cr1 ← get_from_attrs emp ["Country/Region Sub Entity", "Country/Region"] true false
  let country_region := if cr1 ≠ "" then JVal.jstr cr1 else alistGet emp "country" (.jstr "")
  let hr_service_area ← get_from_attrs emp ["HR Service Area"] true false
  let local_pay_level ← get_local_pay_level_best emp
  let base_pay_raw ← get_from_attrs emp ["Base Pay", "Salario Base", "Salary Base"] true false
  let base_pay := base_pay_of base_pay_raw
  let target_incentive_amount ← target_incentive_amount_of emp
  let cu1 ← get_from_attrs emp ["Currency"] true false
  let currency ←
    if cu1 ≠ "" then pure (JVal.jstr cu1)
    else pyGet (alistGet emp "current_job" (.jdict [])) "currency_code" (.jstr "")
  let rolev ← pyGet job "role" .jnull
  let namev ← pyGet (pyOr rolev (.jdict [])) "name" .jnull
  let role_name ← pyStripMethod (pyOr namev (.jstr ""))
  let local_job_title ←
    if role_name ≠ "" then pure (pyStrip ⟨role_name.data.takeWhile (fun c => c ≠ '/')⟩)
    else get_from_attrs emp ["Local Job Title"] true false
  let date_local_job_title ← get_from_attrs emp ["Date Local Job Title"] true true
  let depth_structure ← get_from_attrs emp ["Depth Structure"] true false
  let date_gpm_status ←
    if date_contract_status ≠ "" then pure date_contract_status
    else get_from_attrs emp ["Date GPM Status"] true true
  let gpm_exit_status ← get_from_attrs emp ["GPM Exit Status"] true false
  let date_base_pay ← get_from_attrs emp ["Date Base Pay"] true true
  let date_target_incentive_amount ← get_from_attrs emp ["Date Target Incentive Amount"] true true
  let global_cost_center ← get_from_attrs emp ["Global Cost Center"] true false
  let preferred_surname ← get_from_attrs emp ["Preferred Surname", "Apellido preferido"] false false
  let eligibility_comp ← get_from_attrs emp ["Eligibility for Compensation Planning"] true false
  let grip_position ← get_from_attrs emp ["GRIP Position"] true false
  let sps_elig ← get_from_attrs emp ["SPS_Eligibility"] true false
  let date_sps_elig := to_yyyymmdd (← pyGet job "start_date" .jnull)
  let total_target_cash_raw ← get_from_attrs emp ["Total Target Cash"] true false
  let total_target_cash := total_target_cash_of total_target_cash_raw
  let date_total_target_cash ← get_from_attrs emp ["Date Total Target Cash"] true true
  let pe1 ← get_from_attrs emp
      ["Private E-mail Address", "Private Email Address", "Correo personal", "Email personal"] false false
  let private_email := if pe1 ≠ "" then JVal.jstr pe1
    else pyOr (alistGet emp "personal_email" .jnull)
      (pyOr (alistGet emp "private_email" .jnull) (.jstr ""))
  let pm1 ← get_from_attrs emp
      ["Private Mobile Phone Number", "Private Phone", "Mobile personal", "Celular personal"] false false
  let private_mobile := if pm1 ≠ "" then JVal.jstr pm1
    else pyOr (alistGet emp "personal_mobile" .jnull)
      (pyOr (alistGet emp "private_mobile" .jnull)
        (pyOr (alistGet emp "mobile" .jnull)
          (pyOr (alistGet emp "cellphone" .jnull)
            (pyOr (alistGet emp "phone" .jnull) (.jstr "")))))
  let base_wage_val :=
    match alistGet emp "base_wage" .jnull with
    | .jnull =>
        (match job with
         | .jdict l => alistGet l "base_wage" .jnull
         | _ => .jnull)
    | v => v
  let base_salary_raw ←
    match base_wage_val with
    | .jnull => do
        let r ← get_from_attrs emp ["Base Salary", "Salary Base", "Sueldo Base", "Base Pay"] true false
        pure (JVal.jstr r)
    | v => pure v
  let base_salary := format_decimal_two_places base_salary_raw
  let date_base_salary ← get_from_attrs emp ["Date Base Salary", "Base Salary Date"] true true
  let fixed_allowances ← get_from_attrs emp ["Fixed Allowances"] true false
  let date_fixed_allowance ← get_from_attrs emp ["Date Fixed Allowance"] true true
  let job_region ← pyGet job_ca "JobRegion" (.jstr "")
  let finance_company_code ← get_from_attrs emp ["Finance Company Code"] true false
  let currency_payroll ← get_from_attrs emp
      ["Currency – Payroll", "Currency - Payroll", "Currency Payroll", "Currency–Payroll", "Currency-Payroll"] true false
  let lti_elig ← get_from_attrs emp ["LTI_Eligibility"] true false
  let date_lti_elig ← get_from_attrs emp ["Date LTI_Eligibility"] true true
  let bank_country ← get_from_attrs emp ["Bank Country/Region Code", "Bank Country/Region"] true false
  let bank_code_raw ← get_from_attrs emp ["Bank Code"] true false
  let bank_code :=
    if bank_code_raw = "" then map_bank_code (alistGet emp "bank" (.jstr ""))
    else bank_code_raw
  let bank_control_key ← get_from_attrs emp ["Bank Control Key"] true false
  let an1 ← get_from_attrs emp ["Account Number"] false false
  let account_number := if an1 ≠ "" then JVal.jstr an1 else alistGet emp "account_number" (.jstr "")
  let iban ← get_from_attrs emp ["International Bank Account Number", "IBAN"] true false
  let payroll_area ← get_from_attrs emp ["Payroll Area"] true false
  let tdv ← pyGet (alistGet emp "current_job" (.jdict [])) "end_date" .jnull
  let termination_date := handle_null_date tdv "99991231"
  let last_date_worked := to_yyyymmdd (← pyGet job "end_date" .jnull)
  let position ← get_from_attrs emp ["Position"] true false
  let legal_entity ← get_from_attrs emp ["Legal Entity"] true false
  let employee_group := map_contract_type_status (.jstr contract_type_raw)
  let employee_category := map_employee_category (.jstr mgmt_group)
  let tm1 ← find_any emp ["Time Management Status", "Time Mgmt Status", "Estado de gestión de tiempo"] false
  let time_mgmt_status ←
    if tm1 ≠ "" then pure tm1
    else get_from_attrs emp ["Time Management Status"] true false
  let es1 ← pyGet job_ca "Employee Subgroup" .jnull
  let esv ←
    if pyTruthy es1 then pure es1
    else do
      let es2 ← pyGet cav "Employee Subgroup" .jnull
      pure (pyOr es2 (.jstr ""))
  let employee_subgroup := pyStrip (pyStr esv)
  let pt1 ← pyGet job_ca "Pay Scale Type" .jnull
  let ptv ←
    if pyTruthy pt1 then pure pt1
    else do
      let pt2 ← pyGet cav "Pay Scale Type" .jnull
      pure (pyOr pt2 (.jstr ""))
  let pay_scale_type := pyStrip (pyStr ptv)
  let pa2 ← pyGet job_ca "Pay Scale Area" .jnull
  let pav ←
    if pyTruthy pa2 then pure pa2
    else do
      let paf ← pyGet cav "Pay Scale Area" .jnull
      pure (pyOr paf (.jstr ""))
  let pay_scale_area := pyStrip (pyStr pav)
  let pay_scale_group ← get_from_attrs emp ["Pay Scale Group", "Grupo de escala salarial"] true false
  let country_of_birth := map_country_of_birth (alistGet emp "country_code" .jnull)
  let salutation := map_salutation (alistGet emp "gender" .jnull)
  let line_manager ← get_from_attrs emp ["Line Manager", "Manager Name", "Jefe directo", "Supervisor"] true false
  let sf1 ← pyGet cav "Codigo SF" .jnull
  let successfactors_id ←
    if pyTruthy sf1 then pure sf1
    else do
      let sf2 ← pyGet cav "CodigoSF" .jnull
      if pyTruthy sf2 then pure sf2
      else pyGet cav "SuccessFactors ID" (.jstr "")
  let gid ← pyGet cav "GID" (.jstr "")
  pure
    { dni := dni, gid := gid, surname := surname, first_name_first := first_name_first,
      s2field := s2v, arist_title := arist_title, gender := gender, dob := dob,
      nat1 := nats.1, nat2 := nats.2.1, nat3 := nats.2.2,
      highest_edu := highest_edu, contract_type_raw := contract_type_raw,
      contract_type_code := contract_type_code, contract_status := contract_status,
      contractual_weekly := contractual_weekly, company_entry_date := company_entry_date,
      date_contract_status := date_contract_status, entry_reason := entry_reason,
      company_exit_date := company_exit_date, exit_reason := exit_reason,
      workforce_type := workforce_type, mgmt_group := mgmt_group,
      date_mgmt_group := date_mgmt_group, are := are, loc_short := loc_short,
      in_company_mgr := in_company_mgr, org_code := org_code,
      tech_pmp_flag := tech_pmp_flag, gpm_status := gpm_status,
      place_action := place_action, tax_country := tax_country, tax_state := tax_state,
      addr1 := addr1, addr2 := addr2, addr3 := addr3, city := city,
      statefield := statefield, country_home := country_home, postal_code := postal_code,
      incentive_payment_type := incentive_payment_type, cost_center := cost_center,
      functional_area := functional_area, country_region := country_region,
      hr_service_area := hr_service_area, local_pay_level := local_pay_level,
      base_pay := base_pay, target_incentive_amount := target_incentive_amount,
      currency := currency, local_job_title := local_job_title,
      date_local_job_title := date_local_job_title, depth_structure := depth_structure,
      date_gpm_status := date_gpm_status, gpm_exit_status := gpm_exit_status,
      date_base_pay := date_base_pay,
      date_target_incentive_amount := date_target_incentive_amount,
      global_cost_center := global_cost_center, preferred_surname := preferred_surname,
      eligibility_comp := eligibility_comp, grip_position := grip_position,
      sps_elig := sps_elig, date_sps_elig := date_sps_elig,
      total_target_cash := total_target_cash,
      date_total_target_cash := date_total_target_cash, private_email := private_email,
      private_mobile := private_mobile, base_salary := base_salary,
      date_base_salary := date_base_salary, fixed_allowances := fixed_allowances,
      date_fixed_allowance := date_fixed_allowance, job_region := job_region,
      finance_company_code := finance_company_code, currency_payroll := currency_payroll,
      lti_elig := lti_elig, date_lti_elig := date_lti_elig, bank_country := bank_country,
      bank_code := bank_code, bank_control_key := bank_control_key,
      account_number := account_number, iban := iban, payroll_area := payroll_area,
      termination_date := termination_date, last_date_worked := last_date_worked,
      position := position, legal_entity := legal_entity, employee_group := employee_group,
      employee_category := employee_category, time_mgmt_status := time_mgmt_status,
      employee_subgroup := employee_subgroup, pay_scale_type := pay_scale_type,
      pay_scale_area := pay_scale_area, pay_scale_group := pay_scale_group,
      country_of_birth := country_of_birth, salutation := salutation,
      line_manager := line_manager, successfactors_id := successfactors_id }

/-- Embeds `COLS`, the fixed output column list (note the second
Contract Type column carrying a trailing space). -/
def COLS : List String :=
  ["Personnel Number", "GID", "Surname", "Name",
   "Middle Initial", "Aristocratic Title", "Surname Prefix", "Surname Suffix",
   "Preferred Name / Nickname", "Surname 2", "Title", "Gender", "Date of Birth",
   "Nationality 1", "Nationality 2", "Nationality 3", "Highest Level of Education",
   "Contract Type", "Contract Status", "Contractual Weekly Working Time",
   "Standard Work Week", "Company Entry Date", "Service Date", "Entry Reason", "Company Exit Date",
   "Exit Reason", "Workforce Type", "Management Group", "Date Management Group", "ARE",
   "Location / Office (short name)", "In-company Manager", "OrgCode", "Technical PMP Flag", "GPM Status",
   "Country/Region - Place of Action", "Tax Country/Region", "Tax Country/Region State", "Date Location Change",
   "Address 1", "Address 2", "Address 3", "City", "State", "Country/Region - Home Address", "Postal Code",
   "Incentive Payment Type", "Cost Center", "Functional Area", "Country/Region", "HR Service Area", "Local Pay Level",
   "Date Workforce Type", "Contract Date", "Base Pay", "Target Incentive Amount", "Currency", "Local Job Title",
   "Date Local Job Title", "Depth Structure", "Date GPM Status", "GPM Exit Status", "Date Contract Status", "Date Base Pay",
   "Date Target Incentive Amount", "Global Cost Center", "Name (International)", "Surname (International)",
   "Preferred Surname", "Eligibility for Compensation Planning", "GRIP Position", "SPS_Eligibility", "Date SPS_Eligibility",
   "Total Target Cash", "Date Total Target Cash", "Private E-mail Address",
   "Private Mobile Phone Number", "Base Salary", "Date Base Salary", "Fixed Allowances", "Date Fixed Allowance", "JobRegion",
   "Finance Company Code", "Currency Payroll", "LTI_Eligibility", "Date LTI_Eligibility", "Bank Country/Region Code", "Bank Code",
   "Bank Control Key", "Account Number", "International Bank Account Number", "Payroll Area", "Termination Date",
   "Last Date Worked", "Position", "Legal Entity",
   "Employee Group", "Employee Category", "Time Management Status", "Employee Subgroup", "Pay Scale Type", "Pay Scale Area",
   "Pay Scale Group", "Contract Type ", "Standard Weekly Hours", "Country of Birth", "Salutation", "Preferred Name", "Line Manager",
   "SuccessFactors ID"]

/-- Embeds `FILTERED_COLS`. -/
def FILTERED_COLS : List String := COLS ++ ["Filter Reason"]

/-- The row dict literal of `build_employee_row`: the computed locals under
the fixed keys, in source order, passed through `normalize_row_text`, then
the Filter Reason entry appended when a truthy filter reason was supplied.
Locals that alias the company entry date (service date, date of location
change, date of workforce type, contract date) and the reused name fields
appear here as the field they copy; the Standard Work Week local is the
fixed constant. -/
def mkRow (filter_reason : JVal) (f : Fields) : List (String × JVal) :=
  let row := normalize_row_text
    [("Personnel Number", .jstr f.dni),
     ("GID", f.gid),
     ("Surname", .jstr f.surname),
     ("Name", .jstr f.first_name_first),
     ("Middle Initial", .jstr ""),
     ("Aristocratic Title", .jstr ""),
     ("Surname Prefix", .jstr ""),
     ("Surname Suffix", .jstr ""),
     ("Preferred Name / Nickname", .jstr f.first_name_first),
     ("Surname 2", f.s2field),
     ("Title", .jstr f.arist_title),
     ("Gender", f.gender),
     ("Date of Birth", .jstr f.dob),
     ("Nationality 1", .jstr f.nat1),
     ("Nationality 2", .jstr f.nat2),
     ("Nationality 3", .jstr f.nat3),
     ("Highest Level of Education", .jstr f.highest_edu),
     ("Contract Type", .jstr f.contract_type_code),
     ("Contract Status", .jstr f.contract_status),
     ("Contractual Weekly Working Time", .jstr f.contractual_weekly),
     ("Standard Work Week", .jstr "45.00"),
     ("Company Entry Date", .jstr f.company_entry_date),
     ("Service Date", .jstr f.company_entry_date),
     ("Entry Reason", f.entry_reason),
     ("Company Exit Date", .jstr f.company_exit_date),
     ("Exit Reason", f.exit_reason),
     ("Workforce Type", .jstr f.workforce_type),
     ("Management Group", .jstr f.mgmt_group),
     ("Date Management Group", .jstr f.date_mgmt_group),
     ("ARE", .jstr f.are),
     ("Location / Office (short name)", f.loc_short),
     ("In-company Manager", .jstr f.in_company_mgr),
     ("OrgCode", .jstr f.org_code),
     ("Technical PMP Flag", .jstr f.tech_pmp_flag),
     ("GPM Status", .jstr f.gpm_status),
     ("Country/Region - Place of Action", f.place_action),
     ("Tax Country/Region", .jstr f.tax_country),
     ("Tax Country/Region State", .jstr f.tax_state),
     ("Date Location Change", .jstr f.company_entry_date),
     ("Address 1", f.addr1),
     ("Address 2", f.addr2),
     ("Address 3", f.addr3),
     ("City", f.city),
     ("State", .jstr f.statefield),
     ("Country/Region - Home Address", .jstr f.country_home),
     ("Postal Code", .jstr f.postal_code),
     ("Incentive Payment Type", .jstr f.incentive_payment_type),
     ("Cost Center", f.cost_center),
     ("Functional Area", .jstr f.functional_area),
     ("Country/Region", f.country_region),
     ("HR Service Area", .jstr f.hr_service_area),
     ("Local Pay Level", .jstr f.local_pay_level),
     ("Date Workforce Type", .jstr f.company_entry_date),
     ("Contract Date", .jstr f.company_entry_date),
     ("Base Pay", .jstr f.base_pay),
     ("Target Incentive Amount", .jstr f.target_incentive_amount),
     ("Currency", f.currency),
     ("Local Job Title", .jstr f.local_job_title),
     ("Date Local Job Title", .jstr f.date_local_job_title),
     ("Depth Structure", .jstr f.depth_structure),
     ("Date GPM Status", .jstr f.date_gpm_status),
     ("GPM Exit Status", .jstr f.gpm_exit_status),
     ("Date Contract Status", .jstr f.date_contract_status),
     ("Date Base Pay", .jstr f.date_base_pay),
     ("Date Target Incentive Amount", .jstr f.date_target_incentive_amount),
     ("Global Cost Center", .jstr f.global_cost_center),
     ("Name (International)", .jstr f.first_name_first),
     ("Surname (International)", .jstr f.surname),
     ("Preferred Surname", .jstr f.preferred_surname),
     ("Eligibility for Compensation Planning", .jstr f.eligibility_comp),
     ("GRIP Position", .jstr f.grip_position),
     ("SPS_Eligibility", .jstr f.sps_elig),
     ("Date SPS_Eligibility", .jstr f.date_sps_elig),
     ("Total Target Cash", .jstr f.total_target_cash),
     ("Date Total Target Cash", .jstr f.date_total_target_cash),
     ("Private E-mail Address", f.private_email),
     ("Private Mobile Phone Number", f.private_mobile),
     ("Base Salary", .jstr f.base_salary),
     ("Date Base Salary", .jstr f.date_base_salary),
     ("Fixed Allowances", .jstr f.fixed_allowances),
     ("Date Fixed Allowance", .jstr f.date_fixed_allowance),
     ("JobRegion", f.job_region),
     ("Finance Company Code", .jstr f.finance_company_code),
     ("Currency Payroll", .jstr f.currency_payroll),
     ("LTI_Eligibility", .jstr f.lti_elig),
     ("Date LTI_Eligibility", .jstr f.date_lti_elig),
     ("Bank Country/Region Code", .jstr f.bank_country),
     ("Bank Code", .jstr f.bank_code),
     ("Bank Control Key", .jstr f.bank_control_key),
     ("Account Number", f.account_number),
     ("International Bank Account Number", .jstr f.iban),
     ("Payroll Area", .jstr f.payroll_area),
     ("Termination Date", .jstr f.termination_date),
     ("Last Date Worked", .jstr f.last_date_worked),
     ("Position", .jstr f.position),
     ("Legal Entity", .jstr f.legal_entity),
     ("Employee Group", .jstr f.employee_group),
     ("Employee Category", .jstr f.employee_category),
     ("Time Management Status", .jstr f.time_mgmt_status),
     ("Employee Subgroup", .jstr f.employee_subgroup),
     ("Pay Scale Type", .jstr f.pay_scale_type),
     ("Pay Scale Area", .jstr f.pay_scale_area),
     ("Pay Scale Group", .jstr f.pay_scale_group),
     ("Contract Type ", .jstr (convert_to_chl_code f.contract_type_code)),
     ("Standard Weekly Hours", .jstr f.contractual_weekly),
     ("Country of Birth", .jstr f.country_of_birth),
     ("Salutation", .jstr f.salutation),
     ("Preferred Name", .jstr f.first_name_first),
     ("Line Manager", .jstr f.line_manager),
     ("SuccessFactors ID", f.successfactors_id)]
  if pyTruthy filter_reason then row ++ [("Filter Reason", filter_reason)] else row

/-- Embeds `build_employee_row`: compute the locals, assemble the row. -/
def build_employee_row (emp : PyDict) (filter_reason : JVal) :
    Except String (List (String × JVal)) :=
  (build_fields emp).map (mkRow filter_reason)

/-! Embedding of the export loop of `main` and the output sort. -/

/-- One output row. -/
abbrev Row := List (String × JVal)

/-- Python int(...) on a character list: optional surrounding whitespace,
optional sign, nonempty digits (underscore digit grouping is outside the
modelled value domain). -/
def intParseChars (l : List Char) : Option Int :=
  let t := stripChars l
  let signAndRest : Bool × List Char :=
    match t with
    | '-' :: r => (true, r)
    | '+' :: r => (false, r)
    | _ => (false, t)
  if !signAndRest.2.isEmpty && signAndRest.2.all isDigitChar then
    some (if signAndRest.1 then -(digitsVal signAndRest.2 : Int) else (digitsVal signAndRest.2 : Int))
  else none

/-- Embeds `extract_rut_number` (textually identical in both output
branches of main): strip, empty to zero, drop the last character, parse as
int with zero as the fallback on failure. -/
def extract_rut_number (rut : JVal) : Int :=
  let rut_str := pyStrip (pyStr rut)
  if rut_str = "" then 0
  else
    match intParseChars rut_str.data.dropLast with
    | some n => n
    | none => 0

/-- Sort key of an output row: `extract_rut_number` of its Personnel Number
column. -/
def row_sort_key (row : Row) : Int :=
  extract_rut_number (alistGet row "Personnel Number" .jnull)

/-- Stable insertion: the new row, which precedes the list being inserted
into in the original order, goes before the first row of equal or greater
key. -/
def insertRowSorted (a : Row) : List Row → List Row
  | [] => [a]
  | b :: t => if row_sort_key a ≤ row_sort_key b then a :: b :: t else b :: insertRowSorted a t

/-- Stable sort of an output row set by the numeric personnel-number key.
This models sort_values with the stable kind: a stable sort by a given key
is unique, so any correct stable sort computes the same list. -/
def sort_rows : List Row → List Row
  | [] => []
  | a :: t => insertRowSorted a (sort_rows t)

/-- Destination of one employee in the export loop. -/
inductive Dest where
  | filteredRow
  | activeRow
  | skip
deriving DecidableEq, Inhabited

/-- Embeds the per-employee classification of the export loop in `main`:
terminated employees (truthy raw end date) are kept only inside the closed
period window; employees with no end date pass the open-period check only
when an open period was found, and then the four date-validity gates. The
periods are passed as start and end strings, the empty string standing for
a period that was not found. -/
def classify_employee
    (period_open_start period_open_end period_closed_start period_closed_end : String)
    (emp : PyDict) : Except String Dest := do
  let job := pyOr (alistGet emp "current_job" .jnull) (.jdict [])
  let start_date := to_yyyymmdd (← pyGet job "start_date" .jnull)
  let end_date := to_yyyymmdd (← pyGet job "end_date" .jnull)
  let employee_status ← analyze_employee_status emp
  if employee_status.destination = "filtered" then
    if period_closed_start ≠ "" && period_closed_end ≠ "" && end_date ≠ "" then
      if pyStrLe period_closed_start end_date && pyStrLe end_date period_closed_end then
        return Dest.filteredRow
      else return Dest.skip
    else return Dest.skip
  else do
    if period_open_start ≠ "" && period_open_end ≠ "" then
      let is_active_now := end_date = "" || end_date = "00000000"
      let started_in_or_before_period := start_date ≠ "" && pyStrLe start_date period_open_end
      if !(is_active_now && started_in_or_before_period) then return Dest.skip
    let contract_analysis ← analyze_employee_contracts emp
    let company_entry_date := contract_analysis.oldest_start_date
    let service_date := contract_analysis.oldest_start_date
    let date_contract_status := start_date
    let date_sps_elig := start_date
    if !is_valid_date company_entry_date "20220801" then return Dest.skip
    if !is_valid_date service_date "20220801" then return Dest.skip
    if !is_valid_date date_contract_status "20220801" then return Dest.skip
    if !is_valid_date date_sps_elig "20220801" then return Dest.skip
    return Dest.activeRow

/-- Embeds the accumulation of the export loop over the list of employee
records: classification, then row construction for the selected output, in
encounter order.  An uncaught exception aborts the run, here the whole
computation; the first component is the active set, the second the
filtered set. -/
def process_employees (pos poe pcs pce : String) :
    List PyDict → Except String (List Row × List Row)
  | [] => .ok ([], [])
  | emp :: rest => do
      let d ← classify_employee pos poe pcs pce emp
      match d with
      | .filteredRow => do
          let row ← build_employee_row emp .jnull
          let (a, f) ← process_employees pos poe pcs pce rest
          pure (a, row :: f)
      | .activeRow => do
          let row ← build_employee_row emp .jnull
          let (a, f) ← process_employees pos poe pcs pce rest
          pure (row :: a, f)
      | .skip => process_employees pos poe pcs pce rest

/-- The two sorted output row sets the script serializes. -/
def export_outputs (pos poe pcs pce : String) (emps : List PyDict) :
    Except String (List Row × List Row) := do
  let (a, f) ← process_employees pos poe pcs pce emps
  pure (sort_rows a, sort_rows f)

/-! Accessors and record shapes used by the statements below. -/

/-- The current-job value the script works with (the raw value when truthy,
an empty dict otherwise). -/
def current_job_of (emp : PyDict) : JVal :=
  pyOr (alistGet emp "current_job" .jnull) (.jdict [])

/-- The raw current-job end date (the attribute access can raise). -/
def current_job_end (emp : PyDict) : Except String JVal :=
  pyGet (current_job_of emp) "end_date" .jnull

/-- The raw current-job start date (the attribute access can raise). -/
def current_job_start (emp : PyDict) : Except String JVal :=
  pyGet (current_job_of emp) "start_date" .jnull

/-- Employee record carrying a current job value and a jobs array, the
shape `analyze_employee_contracts` reads. -/
def contracts_employee (cur : JVal) (jobs : List JVal) : PyDict :=
  [("current_job", cur), ("jobs", .jlist jobs)]

/-- The raw start date a job entry hands to the contract-analysis loop,
when the entry supports attribute access at all. -/
def jobStartVal (j : JVal) : Option JVal :=
  match j with
  | .jdict e => some (alistGet e "start_date" .jnull)
  | _ => none

/-- Does the contract-analysis loop raise on this job entry: either the
entry is not a dict, or its start date is truthy but not a string. -/
def jobCollectErr (j : JVal) : Bool :=
  match jobStartVal j with
  | none => true
  | some sv =>
      match sv with
      | .jstr _ => false
      | _ => pyTruthy sv

/-- The date a non-raising job entry contributes to the collected list. -/
def jobDateOf (j : JVal) : Option String :=
  match jobStartVal j with
  | none => none
  | some sv =>
      match sv with
      | .jstr s =>
          if pyTruthy sv && !(pyStrip s = "") && !(to_yyyymmdd sv = "") then some (to_yyyymmdd sv)
          else none
      | _ => none

/-- Employee record carrying a job-level and an employee-level custom
attribute mapping, the shape `get_from_attrs` searches. -/
def attrs_employee (jca eca : List (String × JVal)) : PyDict :=
  [("current_job", .jdict [("custom_attributes", .jdict jca)]),
   ("custom_attributes", .jdict eca)]

/-- A current-job value that supports attribute access without raising:
a mapping, or a falsy value replaced by the empty mapping. -/
def dictOrFalsy (v : JVal) : Bool :=
  match v with
  | .jdict _ => true
  | w => !pyTruthy w

/-- Is this value a Python string. -/
def isJStr : JVal → Bool
  | .jstr _ => true
  | _ => false

/-! Concrete employee records evaluated by the witnesses and
counterexamples. -/

/-- An active employee (no end date) with current-job start date inside the
gated range. -/
def c1_employee : PyDict :=
  [("current_job", .jdict [("start_date", .jstr "2022-09-01")]),
   ("custom_attributes", .jdict [("Local Pay Level", .jstr "CL_TESTLEVEL99")])]

/-- An employee whose current job started before every entry of the jobs
array. -/
def c2_employee : PyDict :=
  contracts_employee (.jdict [("start_date", .jstr "2018-01-01")])
    [.jdict [("start_date", .jstr "2020-01-01")]]

/-- The current job of the earliest-entry-date example. -/
def c2_current : JVal := .jdict [("start_date", .jstr "2021-05-01")]

/-- The three jobs of the earliest-entry-date example. -/
def c2_jobs : List JVal :=
  [.jdict [("start_date", .jstr "2021-05-01")],
   .jdict [("start_date", .jstr "2019-03-15")],
   .jdict [("start_date", .jstr "2022-01-01")]]

/-- A row whose personnel number has no parseable numeric key. -/
def c3_row_a : Row := [("Personnel Number", .jstr "abc")]

/-- A row whose personnel number yields the numeric key fifteen. -/
def c3_row_b : Row := [("Personnel Number", .jstr "15x")]

/-- An employee whose gender maps to the male code. -/
def c5_employee : PyDict :=
  [("gender", .jstr "m"),
   ("custom_attributes", .jdict [("Local Pay Level", .jstr "CL_TESTLEVEL99")])]

/-- An employee record whose status field is null. -/
def c6_status_employee : PyDict := [("status", .jnull)]

/-- An employee record whose first name is null. -/
def c6_name_employee : PyDict := [("first_name", .jnull)]

/-- A terminated employee with exit date inside the closed period of the
end-to-end scenario. -/
def c8_employee : PyDict :=
  [("current_job", .jdict [("start_date", .jstr "2024-01-10"), ("end_date", .jstr "2024-06-15"),
      ("termination_reason", .jstr "renuncia")]),
   ("custom_attributes", .jdict [("Local Pay Level", .jstr "CL_TESTLEVEL99")])]

/-- The same employee with exit date outside the closed period. -/
def c8_employee_outside : PyDict :=
  [("current_job", .jdict [("start_date", .jstr "2024-01-10"), ("end_date", .jstr "2024-07-01"),
      ("termination_reason", .jstr "renuncia")]),
   ("custom_attributes", .jdict [("Local Pay Level", .jstr "CL_TESTLEVEL99")])]

/-! Supporting lemmas. -/

theorem lexLt_irrefl : ∀ a : List Char, lexLt a a = false := by
  intro a
  induction a with
  | nil => rfl
  | cons x xs ih => simp [lexLt, ih]

theorem lexLt_asymm : ∀ a b : List Char, lexLt a b = true → lexLt b a = false := by
  intro a
  induction a with
  | nil => intro b h; cases b <;> simp_all [lexLt]
  | cons x xs ih =>
      intro b h
      cases b with
      | nil => simp_all [lexLt]
      | cons y ys =>
          simp only [lexLt] at h ⊢
          rcases lt_trichotomy x y with hlt | heq | hgt
          · simp [hlt, not_lt_of_lt hlt]
          · subst heq
            simp only [lt_irrefl, if_false] at h ⊢
            exact ih ys h
          · simp [hgt, not_lt_of_lt hgt] at h

theorem lexLt_antisymm : ∀ a b : List Char, lexLt a b = false → lexLt b a = false → a = b := by
  intro a
  induction a with
  | nil => intro b h1 h2; cases b <;> simp_all [lexLt]
  | cons x xs ih =>
      intro b h1 h2
      cases b with
      | nil => simp_all [lexLt]
      | cons y ys =>
          simp only [lexLt] at h1 h2
          rcases lt_trichotomy x y with hlt | heq | hgt
          · simp [hlt] at h1
          · subst heq
            simp only [lt_irrefl, if_false] at h1 h2
            exact congrArg₂ (· :: ·) rfl (ih ys h1 h2)
          · simp [hgt] at h2

theorem lexLt_le_trans : ∀ a b c : List Char, lexLt a b = false → lexLt b c = false → lexLt a c = false := by
  intro a
  induction a with
  | nil =>
      intro b c h1 h2
      cases b with
      | nil => exact h2
      | cons y ys => simp [lexLt] at h1
  | cons x xs ih =>
      intro b c h1 h2
      cases b with
      | nil => cases c with
        | nil => rfl
        | cons z zs => simp [lexLt] at h2
      | cons y ys =>
          cases c with
          | nil => rfl
          | cons z zs =>
              simp only [lexLt] at h1 h2 ⊢
              rcases lt_trichotomy x y with hxy | hxy | hxy
              · simp [hxy] at h1
              · subst hxy
                rcases lt_trichotomy x z with hxz | hxz | hxz
                · simp [hxz] at h2
                · subst hxz
                  simp only [lt_irrefl, if_false] at h1 h2 ⊢
                  exact ih ys zs h1 h2
                · simp [hxz, not_lt_of_lt hxz]
              · rcases lt_trichotomy y z with hyz | hyz | hyz
                · simp [hyz] at h2
                · subst hyz
                  simp [not_lt_of_lt hxy, hxy]
                · have hxz := lt_trans hyz hxy
                  simp [not_lt_of_lt hxz, hxz]

theorem pyStrLt_false_antisymm {a b : String} (h1 : pyStrLt a b = false) (h2 : pyStrLt b a = false) :
    a = b := by
  cases a with
  | mk da => cases b with
    | mk db =>
        have := lexLt_antisymm da db h1 h2
        exact congrArg String.mk this

theorem pyMin_foldl_mem (t : List String) :
    ∀ h : String, t.foldl (fun a b => if pyStrLt b a then b else a) h ∈ h :: t := by
  induction t with
  | nil => intro h; simp
  | cons y ys ih =>
      intro h
      simp only [List.foldl_cons]
      have := ih (if pyStrLt y h then y else h)
      rcases List.mem_cons.1 this with heq | hmem
      · rw [heq]
        by_cases hc : pyStrLt y h = true
        · simp [hc]
        · simp only [eq_false_of_ne_true hc, if_false]
          exact List.mem_cons_self _ _
      · exact List.mem_cons_of_mem _ (List.mem_cons_of_mem _ hmem)

theorem pyMin_foldl_le (t : List String) :
    ∀ h x : String, x ∈ h :: t →
      pyStrLt x (t.foldl (fun a b => if pyStrLt b a then b else a) h) = false := by
  induction t with
  | nil =>
      intro h x hx
      simp at hx
      subst hx
      exact lexLt_irrefl _
  | cons y ys ih =>
      intro h x hx
      simp only [List.foldl_cons]
      by_cases hc : pyStrLt y h = true
      · -- the accumulator becomes y
        simp only [hc, if_true]
        rcases List.mem_cons.1 hx with heq | hx2
        · -- x = h: the result is below y, and y is below h
          rw [heq]
          exact lexLt_le_trans _ _ _ (lexLt_asymm _ _ hc) (ih y y (List.mem_cons_self _ _))
        · rcases List.mem_cons.1 hx2 with heq | hx3
          · rw [heq]; exact ih y y (List.mem_cons_self _ _)
          · exact ih y x (List.mem_cons_of_mem _ hx3)
      · simp only [eq_false_of_ne_true hc, if_false]
        rcases List.mem_cons.1 hx with heq | hx2
        · rw [heq]; exact ih h h (List.mem_cons_self _ _)
        · rcases List.mem_cons.1 hx2 with heq | hx3
          · -- x = y: the result is below h, and h is below y
            rw [heq]
            exact lexLt_le_trans _ _ _ (eq_false_of_ne_true hc) (ih h h (List.mem_cons_self _ _))
          · exact ih h x (List.mem_cons_of_mem _ hx3)

theorem pyMinStr_mem {l : List String} (h : l ≠ []) : pyMinStr l ∈ l := by
  cases l with
  | nil => exact absurd rfl h
  | cons a t => exact pyMin_foldl_mem t a

theorem pyMinStr_le {l : List String} {x : String} (hx : x ∈ l) :
    pyStrLt x (pyMinStr l) = false := by
  cases l with
  | nil => cases hx
  | cons a t => exact pyMin_foldl_le t a x hx

theorem pyMinStr_perm {l l' : List String} (h : l.Perm l') : pyMinStr l = pyMinStr l' := by
  cases l with
  | nil =>
      have : l' = [] := h.nil_eq.symm
      rw [this]
  | cons a t =>
      have hne' : l' ≠ [] := by
        intro he
        rw [he] at h
        exact absurd h.length_eq (by simp)
      have hm1 : pyMinStr (a :: t) ∈ (a :: t) := pyMinStr_mem (by simp)
      have hm2 : pyMinStr l' ∈ l' := pyMinStr_mem hne'
      have h12 : pyStrLt (pyMinStr l') (pyMinStr (a :: t)) = false :=
        pyMinStr_le (h.mem_iff.2 hm2)
      have h21 : pyStrLt (pyMinStr (a :: t)) (pyMinStr l') = false :=
        pyMinStr_le (h.mem_iff.1 hm1)
      exact pyStrLt_false_antisymm h21 h12


theorem collectJobDates_ok : ∀ l : List JVal, (∀ j ∈ l, jobCollectErr j = false) →
    collectJobDates l = .ok (l.filterMap jobDateOf) := by
  intro l
  induction l with
  | nil => intro _; rfl
  | cons j rest ih =>
      intro h
      have hj : jobCollectErr j = false := h j (List.mem_cons_self _ _)
      have hrest := ih (fun x hx => h x (List.mem_cons_of_mem _ hx))
      cases j with
      | jdict e =>
          simp only [collectJobDates, pyGet, jobCollectErr, jobStartVal] at hj ⊢
          simp only [List.filterMap_cons, jobDateOf, jobStartVal]
          cases hsv : alistGet e "start_date" .jnull with
          | jstr s =>
              rw [hsv] at hj
              by_cases ht : pyTruthy (JVal.jstr s) = true
              · simp only [Except.bind, Bind.bind, ht, if_true, pure]
                by_cases hstrip : pyStrip s = ""
                · simp [hstrip, hrest, ht]
                · by_cases hfmt : to_yyyymmdd (JVal.jstr s) = ""
                  · simp [hstrip, hfmt, hrest, ht]
                  · simp [hstrip, hfmt, hrest, ht, Except.bind, Bind.bind, pure, Except.pure]
              · have ht' : pyTruthy (JVal.jstr s) = false := eq_false_of_ne_true ht
                simp [Except.bind, Bind.bind, ht', hrest]
          | jnull =>
              rw [hsv] at hj
              simp [Except.bind, Bind.bind, pyTruthy, hrest]
          | jint n =>
              rw [hsv] at hj
              simp only [pyTruthy] at hj
              simp [Except.bind, Bind.bind, pyTruthy, hj, hrest]
          | jbool b =>
              rw [hsv] at hj
              simp only [pyTruthy] at hj
              simp [Except.bind, Bind.bind, pyTruthy, hj, hrest]
          | jdict d =>
              rw [hsv] at hj
              simp only [pyTruthy] at hj
              simp [Except.bind, Bind.bind, pyTruthy, hj, hrest]
          | jlist d =>
              rw [hsv] at hj
              simp only [pyTruthy] at hj
              simp [Except.bind, Bind.bind, pyTruthy, hj, hrest]
      | jnull => simp [jobCollectErr, jobStartVal] at hj
      | jstr s => simp [jobCollectErr, jobStartVal] at hj
      | jint n => simp [jobCollectErr, jobStartVal] at hj
      | jbool b => simp [jobCollectErr, jobStartVal] at hj
      | jlist d => simp [jobCollectErr, jobStartVal] at hj

theorem collectJobDates_err : ∀ l : List JVal, (∃ j ∈ l, jobCollectErr j = true) →
    collectJobDates l = .error "AttributeError" := by
  intro l
  induction l with
  | nil => rintro ⟨j, hj, _⟩; cases hj
  | cons j rest ih =>
      rintro ⟨x, hx, hxe⟩
      rcases List.mem_cons.1 hx with heq | hmem
      · -- the head raises
        subst heq
        cases x with
        | jdict e =>
            simp only [jobCollectErr, jobStartVal] at hxe
            simp only [collectJobDates, pyGet]
            cases hsv : alistGet e "start_date" .jnull with
            | jstr s => rw [hsv] at hxe; simp at hxe
            | jnull => rw [hsv] at hxe; simp [pyTruthy] at hxe
            | jint n =>
                rw [hsv] at hxe
                simp only [pyTruthy] at hxe
                simp [Except.bind, Bind.bind, pyTruthy, hxe]
            | jbool b =>
                rw [hsv] at hxe
                simp only [pyTruthy] at hxe
                simp [Except.bind, Bind.bind, pyTruthy, hxe]
            | jdict d =>
                rw [hsv] at hxe
                simp only [pyTruthy] at hxe
                simp [Except.bind, Bind.bind, pyTruthy, hxe]
            | jlist d =>
                rw [hsv] at hxe
                simp only [pyTruthy] at hxe
                simp [Except.bind, Bind.bind, pyTruthy, hxe]
        | jnull => simp [collectJobDates, pyGet, Except.bind, Bind.bind]
        | jstr s => simp [collectJobDates, pyGet, Except.bind, Bind.bind]
        | jint n => simp [collectJobDates, pyGet, Except.bind, Bind.bind]
        | jbool b => simp [collectJobDates, pyGet, Except.bind, Bind.bind]
        | jlist d => simp [collectJobDates, pyGet, Except.bind, Bind.bind]
      · -- the tail raises
        have hrest := ih ⟨x, hmem, hxe⟩
        cases j with
        | jdict e =>
            simp only [collectJobDates, pyGet]
            cases hsv : alistGet e "start_date" .jnull with
            | jstr s =>
                by_cases ht : pyTruthy (JVal.jstr s) = true
                · simp only [Except.bind, Bind.bind, ht, if_true]
                  by_cases hstrip : pyStrip s = ""
                  · simp [hstrip, hrest, ht]
                  · by_cases hfmt : to_yyyymmdd (JVal.jstr s) = ""
                    · simp [hstrip, hfmt, hrest, ht]
                    · simp [hstrip, hfmt, hrest, ht, Except.bind, Bind.bind]
                · have ht' : pyTruthy (JVal.jstr s) = false := eq_false_of_ne_true ht
                  simp [Except.bind, Bind.bind, ht', hrest]
            | jnull => simp [Except.bind, Bind.bind, pyTruthy, hrest]
            | jint n =>
                by_cases ht : pyTruthy (JVal.jint n) = true
                · simp [Except.bind, Bind.bind, ht]
                · simp [Except.bind, Bind.bind, eq_false_of_ne_true ht, hrest]
            | jbool b =>
                by_cases ht : pyTruthy (JVal.jbool b) = true
                · simp [Except.bind, Bind.bind, ht]
                · simp [Except.bind, Bind.bind, eq_false_of_ne_true ht, hrest]
            | jdict d =>
                by_cases ht : pyTruthy (JVal.jdict d) = true
                · simp [Except.bind, Bind.bind, ht]
                · simp [Except.bind, Bind.bind, eq_false_of_ne_true ht, hrest]
            | jlist d =>
                by_cases ht : pyTruthy (JVal.jlist d) = true
                · simp [Except.bind, Bind.bind, ht]
                · simp [Except.bind, Bind.bind, eq_false_of_ne_true ht, hrest]
        | jnull => simp [collectJobDates, pyGet, Except.bind, Bind.bind]
        | jstr s => simp [collectJobDates, pyGet, Except.bind, Bind.bind]
        | jint n => simp [collectJobDates, pyGet, Except.bind, Bind.bind]
        | jbool b => simp [collectJobDates, pyGet, Except.bind, Bind.bind]
        | jlist d => simp [collectJobDates, pyGet, Except.bind, Bind.bind]

theorem analyze_employee_contracts_perm (cur : JVal) (l l' : List JVal) (hp : l.Perm l') :
    analyze_employee_contracts (contracts_employee cur l) =
      analyze_employee_contracts (contracts_employee cur l') := by
  have hcur : ∀ js : List JVal,
      alistGet (contracts_employee cur js) "current_job" (.jdict []) = cur := fun _ => rfl
  have hjobs : ∀ js : List JVal,
      alistGet (contracts_employee cur js) "jobs" (.jlist []) = .jlist js := fun _ => rfl
  simp only [analyze_employee_contracts, hcur, hjobs]
  cases hs : pyGet cur "start_date" .jnull with
  | error e => simp [Except.bind, Bind.bind]
  | ok sv =>
      simp only [Except.bind, Bind.bind]
      cases l with
      | nil =>
          have : l' = [] := hp.nil_eq.symm
          subst this
          rfl
      | cons a t =>
          have hne' : l' ≠ [] := by
            intro he
            subst he
            exact absurd hp.length_eq (by simp)
          have htr : pyTruthy (JVal.jlist (a :: t)) = true := by simp [pyTruthy]
          have htr' : pyTruthy (JVal.jlist l') = true := by
            cases l' with
            | nil => exact absurd rfl hne'
            | cons b u => simp [pyTruthy]
          simp only [htr, htr', if_true]
          by_cases hbad : ∃ j ∈ (a :: t), jobCollectErr j = true
          · have hbad' : ∃ j ∈ l', jobCollectErr j = true := by
              rcases hbad with ⟨j, hj, hje⟩
              exact ⟨j, hp.mem_iff.1 hj, hje⟩
            rw [collectJobDates_err _ hbad, collectJobDates_err _ hbad']
          · have hok : ∀ j ∈ (a :: t), jobCollectErr j = false := by
              intro j hj
              by_contra hc
              exact hbad ⟨j, hj, eq_true_of_ne_false hc⟩
            have hok' : ∀ j ∈ l', jobCollectErr j = false := by
              intro j hj
              exact hok j (hp.mem_iff.2 hj)
            rw [collectJobDates_ok _ hok, collectJobDates_ok _ hok']
            have hdp : ((a :: t).filterMap jobDateOf).Perm (l'.filterMap jobDateOf) :=
              hp.filterMap jobDateOf
            have hmin : pyMinStr ((a :: t).filterMap jobDateOf) = pyMinStr (l'.filterMap jobDateOf) :=
              pyMinStr_perm hdp
            have hemp : ((a :: t).filterMap jobDateOf).isEmpty = (l'.filterMap jobDateOf).isEmpty := by
              cases h1 : (a :: t).filterMap jobDateOf with
              | nil =>
                  have : l'.filterMap jobDateOf = [] := by
                    rw [h1] at hdp
                    exact hdp.nil_eq.symm
                  rw [this]
              | cons d ds =>
                  cases h2 : l'.filterMap jobDateOf with
                  | nil =>
                      rw [h1, h2] at hdp
                      exact absurd hdp.length_eq (by simp)
                  | cons d2 ds2 => rfl
            have hlen : (a :: t).length = l'.length := hp.length_eq
            simp [hmin, hemp, hlen, pyLen]

theorem pyGet_ok_dict {v : JVal} {k : String} {d x : JVal} (h : pyGet v k d = .ok x) :
    ∃ l, v = .jdict l ∧ alistGet l k d = x := by
  cases v <;> simp [pyGet] at h <;> try exact absurd h (by simp)
  case jdict l => exact ⟨l, rfl, h⟩

theorem to_yyyymmdd_falsy {v : JVal} (h : pyTruthy v = false) : to_yyyymmdd v = "" := by
  simp [to_yyyymmdd, h]

theorem insertRowSorted_perm (a : Row) : ∀ l : List Row, (insertRowSorted a l).Perm (a :: l) := by
  intro l
  induction l with
  | nil => exact List.Perm.refl _
  | cons b t ih =>
      simp only [insertRowSorted]
      by_cases hc : row_sort_key a ≤ row_sort_key b
      · rw [if_pos hc]
      · rw [if_neg hc]
        exact (ih.cons b).trans (List.Perm.swap a b t)

theorem sort_rows_perm : ∀ l : List Row, (sort_rows l).Perm l := by
  intro l
  induction l with
  | nil => exact List.Perm.refl _
  | cons a t ih =>
      simp only [sort_rows]
      exact (insertRowSorted_perm a (sort_rows t)).trans (ih.cons a)

theorem insertRowSorted_pairwise (a : Row) :
    ∀ l : List Row, l.Pairwise (fun x y => row_sort_key x ≤ row_sort_key y) →
      (insertRowSorted a l).Pairwise (fun x y => row_sort_key x ≤ row_sort_key y) := by
  intro l
  induction l with
  | nil => intro _; simp [insertRowSorted]
  | cons b t ih =>
      intro hp
      rw [List.pairwise_cons] at hp
      simp only [insertRowSorted]
      by_cases hc : row_sort_key a ≤ row_sort_key b
      · rw [if_pos hc]
        rw [List.pairwise_cons]
        refine ⟨?_, List.pairwise_cons.2 hp⟩
        intro x hx
        rcases List.mem_cons.1 hx with heq | hmem
        · rw [heq]; exact hc
        · exact le_trans hc (hp.1 x hmem)
      · rw [if_neg hc]
        rw [List.pairwise_cons]
        refine ⟨?_, ih hp.2⟩
        intro x hx
        have hx' := (insertRowSorted_perm a t).mem_iff.1 hx
        rcases List.mem_cons.1 hx' with heq | hmem
        · rw [heq]; exact le_of_not_le hc
        · exact hp.1 x hmem

theorem sort_rows_pairwise : ∀ l : List Row,
    (sort_rows l).Pairwise (fun x y => row_sort_key x ≤ row_sort_key y) := by
  intro l
  induction l with
  | nil => simp [sort_rows]
  | cons a t ih => exact insertRowSorted_pairwise a (sort_rows t) ih

theorem insertRowSorted_filter_eq (a : Row) (k : Int) (ha : row_sort_key a = k) :
    ∀ l : List Row, l.Pairwise (fun x y => row_sort_key x ≤ row_sort_key y) →
      (insertRowSorted a l).filter (fun r => row_sort_key r = k) =
        a :: l.filter (fun r => row_sort_key r = k) := by
  intro l
  induction l with
  | nil => intro _; simp [insertRowSorted, List.filter, ha]
  | cons b t ih =>
      intro hp
      rw [List.pairwise_cons] at hp
      simp only [insertRowSorted]
      by_cases hc : row_sort_key a ≤ row_sort_key b
      · rw [if_pos hc]
        simp [List.filter, ha]
      · rw [if_neg hc]
        have hbk : row_sort_key b ≠ k := by
          intro he
          rw [← ha] at he
          exact hc (le_of_eq he.symm)
        simp only [List.filter_cons]
        rw [if_neg (by simp [hbk]), if_neg (by simp [hbk])]
        exact ih hp.2

theorem insertRowSorted_filter_ne (a : Row) (k : Int) (ha : row_sort_key a ≠ k) :
    ∀ l : List Row,
      (insertRowSorted a l).filter (fun r => row_sort_key r = k) =
        l.filter (fun r => row_sort_key r = k) := by
  intro l
  induction l with
  | nil => simp [insertRowSorted, List.filter, ha]
  | cons b t ih =>
      simp only [insertRowSorted]
      by_cases hc : row_sort_key a ≤ row_sort_key b
      · rw [if_pos hc]
        simp only [List.filter_cons]
        rw [if_neg (by simp [ha])]
      · rw [if_neg hc]
        simp only [List.filter_cons]
        by_cases hbk : row_sort_key b = k
        · rw [if_pos (by simp [hbk]), if_pos (by simp [hbk]), ih]
        · rw [if_neg (by simp [hbk]), if_neg (by simp [hbk]), ih]

theorem isDigitChar_digitChar (n : Nat) : isDigitChar (digitChar (n % 10)) = true := by
  have h : n % 10 < 10 := Nat.mod_lt _ (by norm_num)
  set r := n % 10 with hr
  interval_cases r <;> decide

theorem to_yyyymmdd_shape (v : JVal) :
    to_yyyymmdd v = "" ∨
      ((to_yyyymmdd v).data.length = 8 ∧ (to_yyyymmdd v).data.all isDigitChar = true) := by
  unfold to_yyyymmdd
  by_cases ht : pyTruthy v = true
  · simp only [ht, Bool.not_true, Bool.false_eq_true, if_false]
    by_cases h8 : ((pyStrip (pyStr v)).data.length = 8 && isDigitStr (pyStrip (pyStr v))) = true
    · rw [if_pos h8]
      right
      rw [Bool.and_eq_true] at h8
      refine ⟨by simpa using h8.1, ?_⟩
      have := h8.2
      rw [isDigitStr, Bool.and_eq_true] at this
      exact this.2
    · rw [if_neg h8]
      cases htp : tryStrptime (pyStrip (pyStr v)) strptimeFormats with
      | none => left; rfl
      | some ymd =>
          obtain ⟨y, m, d⟩ := ymd
          right
          constructor
          · rfl
          · show ([digitChar (y / 1000 % 10), digitChar (y / 100 % 10), digitChar (y / 10 % 10),
                digitChar (y % 10)] ++ [digitChar (m / 10 % 10), digitChar (m % 10)] ++
                [digitChar (d / 10 % 10), digitChar (d % 10)]).all isDigitChar = true
            simp [List.all, isDigitChar_digitChar]
  · simp [eq_false_of_ne_true ht]

theorem normalize_row_text_keys (l : List (String × JVal)) :
    (normalize_row_text l).map Prod.fst = l.map Prod.fst := by
  induction l with
  | nil => rfl
  | cons kv t ih =>
      obtain ⟨k, v⟩ := kv
      cases v <;> simpa [normalize_row_text] using ih

theorem mkRow_keys (fr : JVal) (hfr : pyTruthy fr = false) (f : Fields) :
    (mkRow fr f).map Prod.fst = COLS := by
  unfold mkRow
  simp only [hfr, Bool.false_eq_true, if_false]
  rw [normalize_row_text_keys]
  rfl

theorem build_employee_row_keys {emp : PyDict} {r : Row}
    (h : build_employee_row emp .jnull = .ok r) : r.map Prod.fst = COLS := by
  unfold build_employee_row at h
  cases hf : build_fields emp with
  | error e => rw [hf] at h; simp [Except.map] at h
  | ok f =>
      rw [hf] at h
      simp only [Except.map] at h
      injection h with h
      rw [← h]
      exact mkRow_keys JVal.jnull rfl f

theorem process_employees_keys (pos poe pcs pce : String) : ∀ (emps : List PyDict)
    (act fil : List Row), process_employees pos poe pcs pce emps = .ok (act, fil) →
    (∀ r ∈ act, r.map Prod.fst = COLS) ∧ (∀ r ∈ fil, r.map Prod.fst = COLS) := by
  intro emps
  induction emps with
  | nil =>
      intro act fil h
      simp only [process_employees] at h
      injection h with h
      rw [Prod.mk.injEq] at h
      rw [← h.1, ← h.2]
      exact ⟨fun r hr => absurd hr (by simp), fun r hr => absurd hr (by simp)⟩
  | cons emp rest ih =>
      intro act fil h
      simp only [process_employees] at h
      cases hc : classify_employee pos poe pcs pce emp with
      | error e => rw [hc] at h; simp [Except.bind, Bind.bind] at h
      | ok d =>
          rw [hc] at h
          simp only [Except.bind, Bind.bind] at h
          cases d with
          | skip => exact ih act fil h
          | filteredRow =>
              cases hb : build_employee_row emp .jnull with
              | error e => rw [hb] at h; simp at h
              | ok row =>
                  rw [hb] at h
                  simp only [] at h
                  cases hp : process_employees pos poe pcs pce rest with
                  | error e => rw [hp] at h; simp at h
                  | ok p =>
                      obtain ⟨a2, f2⟩ := p
                      rw [hp] at h
                      simp only [pure, Except.pure] at h
                      injection h with h
                      rw [Prod.mk.injEq] at h
                      obtain ⟨ha, hf2⟩ := h
                      obtain ⟨iha, ihf⟩ := ih a2 f2 hp
                      subst ha
                      refine ⟨iha, ?_⟩
                      intro r hr
                      rw [← hf2] at hr
                      rcases List.mem_cons.1 hr with heq | hmem
                      · rw [heq]; exact build_employee_row_keys hb
                      · exact ihf r hmem
          | activeRow =>
              cases hb : build_employee_row emp .jnull with
              | error e => rw [hb] at h; simp at h
              | ok row =>
                  rw [hb] at h
                  simp only [] at h
                  cases hp : process_employees pos poe pcs pce rest with
                  | error e => rw [hp] at h; simp at h
                  | ok p =>
                      obtain ⟨a2, f2⟩ := p
                      rw [hp] at h
                      simp only [pure, Except.pure] at h
                      injection h with h
                      rw [Prod.mk.injEq] at h
                      obtain ⟨ha, hf2⟩ := h
                      obtain ⟨iha, ihf⟩ := ih a2 f2 hp
                      subst hf2
                      refine ⟨?_, ihf⟩
                      intro r hr
                      rw [← ha] at hr
                      rcases List.mem_cons.1 hr with heq | hmem
                      · rw [heq]; exact build_employee_row_keys hb
                      · exact iha r hmem

theorem sort_rows_filter_stable : ∀ (l : List Row) (k : Int),
    (sort_rows l).filter (fun r => row_sort_key r = k) =
      l.filter (fun r => row_sort_key r = k) := by
  intro l
  induction l with
  | nil => intro k; rfl
  | cons a t ih =>
      intro k
      simp only [sort_rows]
      by_cases hak : row_sort_key a = k
      · rw [insertRowSorted_filter_eq a k hak (sort_rows t) (sort_rows_pairwise t), ih k]
        simp [List.filter_cons, hak]
      · rw [insertRowSorted_filter_ne a k hak (sort_rows t), ih k]
        simp [List.filter_cons, hak]

/-! Claim theorems. -/

/-- C8: for every employee with a current-job exit date, the row is placed
in the terminated output if and only if a closed period was found and the
normalized exit date lies within the closed-period window, both endpoints
included; such an employee is never classified into the active output. -/
theorem c8_terminated_inclusion
    (pos poe pcs pce : String) (emp : PyDict) (ed : JVal)
    (hed : current_job_end emp = .ok ed) (ht : pyTruthy ed = true) :
    (classify_employee pos poe pcs pce emp = .ok .filteredRow ↔
      (pcs ≠ "" ∧ pce ≠ "" ∧ pyStrLe pcs (to_yyyymmdd ed) = true ∧
        pyStrLe (to_yyyymmdd ed) pce = true)) ∧
    classify_employee pos poe pcs pce emp ≠ .ok .activeRow := by
  obtain ⟨jl, hjl, hend⟩ := pyGet_ok_dict hed
  have hclass : classify_employee pos poe pcs pce emp =
      (if pcs ≠ "" && pce ≠ "" && to_yyyymmdd ed ≠ "" then
        if pyStrLe pcs (to_yyyymmdd ed) && pyStrLe (to_yyyymmdd ed) pce then
          Except.ok Dest.filteredRow
        else Except.ok Dest.skip
      else Except.ok Dest.skip) := by
    unfold classify_employee analyze_employee_status current_job_of at *
    rw [hjl]
    simp only [pyGet, hend, Except.bind, Bind.bind, ht, if_true, pure, Except.pure]
  rw [hclass]
  constructor
  · constructor
    · intro h
      by_cases h1 : (pcs ≠ "" && pce ≠ "" && to_yyyymmdd ed ≠ "") = true
      · rw [if_pos h1] at h
        by_cases h2 : (pyStrLe pcs (to_yyyymmdd ed) && pyStrLe (to_yyyymmdd ed) pce) = true
        · simp only [Bool.and_eq_true, decide_eq_true_eq] at h1 h2
          exact ⟨h1.1.1, h1.1.2, h2.1, h2.2⟩
        · rw [if_neg h2] at h
          simp at h
      · rw [if_neg h1] at h
        simp at h
    · rintro ⟨hc1, hc2, hle1, hle2⟩
      have hedne : to_yyyymmdd ed ≠ "" := by
        intro he
        rw [he] at hle1
        have : pcs = "" := by
          cases pcs with
          | mk pd =>
              cases pd with
              | nil => rfl
              | cons c cs => simp [pyStrLe, lexLt] at hle1
        exact hc1 this
      rw [if_pos (by simp [hc1, hc2, hedne]), if_pos (by simp [hle1, hle2])]
  · intro h
    by_cases h1 : (pcs ≠ "" && pce ≠ "" && to_yyyymmdd ed ≠ "") = true
    · rw [if_pos h1] at h
      by_cases h2 : (pyStrLe pcs (to_yyyymmdd ed) && pyStrLe (to_yyyymmdd ed) pce) = true
      · rw [if_pos h2] at h; simp at h
      · rw [if_neg h2] at h; simp at h
    · rw [if_neg h1] at h; simp at h

/-- Witness for C8: the end-to-end scenario of the claim.  The employee with
end date 2024-06-15 and closed period 20240601 to 20240630 lands in the
terminated output with Company Exit Date 20240615, while the employee with
end date 2024-07-01 is excluded from both outputs. -/
theorem c8_terminated_witness :
    classify_employee "20250801" "20250831" "20240601" "20240630" c8_employee = .ok .filteredRow ∧
    (process_employees "20250801" "20250831" "20240601" "20240630"
        [c8_employee, c8_employee_outside]).map
      (fun p => (p.1.length, p.2.map (fun r => alistGet r "Company Exit Date" .jnull))) =
      .ok (0, [.jstr "20240615"]) := by
  constructor
  · exact (c8_terminated_inclusion "20250801" "20250831" "20240601" "20240630" c8_employee
      (.jstr "2024-06-15") rfl rfl).1.mpr ⟨by decide, by decide, rfl, rfl⟩
  · rfl

/-- C1 (amended): for every employee with no current-job exit date, the row
is classified into the active output if and only if the date gates pass:
when an open period was found the start date must be nonempty and at most
the open-period end, and the four derived dates (the oldest contract start
date twice and the normalized current-job start date twice) must each pass
the validity gate against 20220801.  When no open period was found, the
open-period check is skipped rather than failing, so the active output can
be nonempty. -/
theorem c1_active_inclusion_amended (pos poe pcs pce : String) (emp : PyDict) (ed sv : JVal)
    (hed : current_job_end emp = .ok ed) (ht : pyTruthy ed = false)
    (hsv : current_job_start emp = .ok sv) :
    (classify_employee pos poe pcs pce emp = .ok .activeRow ↔
      ((pos ≠ "" ∧ poe ≠ "") →
          (to_yyyymmdd sv ≠ "" ∧ pyStrLe (to_yyyymmdd sv) poe = true)) ∧
      ∃ ca, analyze_employee_contracts emp = .ok ca ∧
        is_valid_date ca.oldest_start_date "20220801" = true ∧
        is_valid_date (to_yyyymmdd sv) "20220801" = true) := by
  obtain ⟨jl, hjl, hend⟩ := pyGet_ok_dict hed
  obtain ⟨jl2, hjl2, hstart⟩ := pyGet_ok_dict hsv
  rw [current_job_of] at hjl hjl2
  rw [hjl] at hjl2
  have hjleq : jl2 = jl := by injection hjl2.symm
  subst hjleq
  have hformat : to_yyyymmdd ed = "" := to_yyyymmdd_falsy ht
  by_cases hopen : (pos ≠ "" ∧ poe ≠ "")
  · have b1 : decide (pos ≠ "") = true := decide_eq_true hopen.1
    have b2 : decide (poe ≠ "") = true := decide_eq_true hopen.2
    by_cases hstarted : (decide (to_yyyymmdd sv ≠ "") && pyStrLe (to_yyyymmdd sv) poe) = true
    · cases hca : analyze_employee_contracts emp with
      | error e =>
          simp only [classify_employee, analyze_employee_status, pyGet, hjl, hend, hstart,
            ht, hformat, hca, b1, b2, hstarted, Except.bind, Bind.bind, pure, Except.pure]
          simp [hopen, Bool.and_eq_true, decide_eq_true_eq] at hstarted ⊢
      | ok ca =>
          by_cases g1 : is_valid_date ca.oldest_start_date "20220801" = true
          · by_cases g2 : is_valid_date (to_yyyymmdd sv) "20220801" = true
            · simp only [classify_employee, analyze_employee_status, pyGet, hjl, hend, hstart,
                ht, hformat, hca, b1, b2, hstarted, g1, g2, Except.bind, Bind.bind, pure, Except.pure]
              simp only [Bool.and_eq_true, decide_eq_true_eq] at hstarted
              simp [hstarted, g1, g2]
            · have g2f : is_valid_date (to_yyyymmdd sv) "20220801" = false := eq_false_of_ne_true g2
              simp only [classify_employee, analyze_employee_status, pyGet, hjl, hend, hstart,
                ht, hformat, hca, b1, b2, hstarted, g1, g2f, Except.bind, Bind.bind, pure, Except.pure]
              simp [g2f]
          · have g1f : is_valid_date ca.oldest_start_date "20220801" = false := eq_false_of_ne_true g1
            simp only [classify_employee, analyze_employee_status, pyGet, hjl, hend, hstart,
              ht, hformat, hca, b1, b2, hstarted, g1f, Except.bind, Bind.bind, pure, Except.pure]
            simp [g1f]
    · have hsf : (decide (to_yyyymmdd sv ≠ "") && pyStrLe (to_yyyymmdd sv) poe) = false :=
        eq_false_of_ne_true hstarted
      simp only [classify_employee, analyze_employee_status, pyGet, hjl, hend, hstart,
        ht, hformat, b1, b2, hsf, Except.bind, Bind.bind, pure, Except.pure]
      simp only [Bool.and_eq_true, decide_eq_true_eq, not_and] at hsf ⊢
      constructor
      · intro h
        simp at h
      · rintro ⟨himp, _⟩
        rcases himp hopen with ⟨hne, hle⟩
        rw [Bool.and_eq_false_iff] at hsf
        rcases hsf with h | h
        · simp [hne] at h
        · rw [hle] at h
          cases h
  · have hof : (decide (pos ≠ "") && decide (poe ≠ "")) = false := by
      rcases not_and_or.1 hopen with h | h
      · simp [not_not.1 (fun hc => h hc)]
      · simp [not_not.1 (fun hc => h hc)]
    cases hca : analyze_employee_contracts emp with
    | error e =>
        simp only [classify_employee, analyze_employee_status, pyGet, hjl, hend, hstart,
          ht, hformat, hca, hof, Except.bind, Bind.bind, pure, Except.pure]
        simp [hopen]
    | ok ca =>
        by_cases g1 : is_valid_date ca.oldest_start_date "20220801" = true
        · by_cases g2 : is_valid_date (to_yyyymmdd sv) "20220801" = true
          · simp only [classify_employee, analyze_employee_status, pyGet, hjl, hend, hstart,
              ht, hformat, hca, hof, g1, g2, Except.bind, Bind.bind, pure, Except.pure]
            simp [hopen, g1, g2]
          · have g2f : is_valid_date (to_yyyymmdd sv) "20220801" = false := eq_false_of_ne_true g2
            simp only [classify_employee, analyze_employee_status, pyGet, hjl, hend, hstart,
              ht, hformat, hca, hof, g1, g2f, Except.bind, Bind.bind, pure, Except.pure]
            simp [g2f]
        · have g1f : is_valid_date ca.oldest_start_date "20220801" = false := eq_false_of_ne_true g1
          simp only [classify_employee, analyze_employee_status, pyGet, hjl, hend, hstart,
            ht, hformat, hca, hof, g1f, Except.bind, Bind.bind, pure, Except.pure]
          simp [g1f]


/-- Witness for C1: an active employee passing the gates is classified into
the active output. -/
theorem c1_active_inclusion_witness :
    classify_employee "" "" "20240601" "20240630" c1_employee = .ok .activeRow := by
  exact (c1_active_inclusion_amended "" "" "20240601" "20240630" c1_employee .jnull
      (.jstr "2022-09-01") rfl rfl rfl).mpr
    ⟨fun h => absurd rfl h.1, ⟨"20220901", "20220901", 0, false⟩, rfl, rfl, rfl⟩

/-- Counterexample for C1: with no open period found at all, an employee
with no exit date still reaches the active output, which therefore is not
empty: the open-period check is skipped, not failed. -/
theorem c1_no_open_period_counterexample :
    classify_employee "" "" "" "" c1_employee = .ok .activeRow ∧
    (process_employees "" "" "" "" [c1_employee]).map
      (fun p => (p.1.length, p.2.length)) = .ok (1, 0) := ⟨rfl, rfl⟩

/-- C2 (amended): the earliest-entry-date analysis is the lexicographic
minimum of the parseable start dates of the jobs array only, independent of
the order of that array; the current-job start date is not part of the
minimum and is used only as a fallback, in particular when the jobs array
is empty; on the start dates 2021-05-01, 2019-03-15 and 2022-01-01 in any
order the result is 20190315. -/
theorem c2_earliest_entry_amended :
    (∀ (cur : JVal) (l l' : List JVal), l.Perm l' →
        analyze_employee_contracts (contracts_employee cur l) =
          analyze_employee_contracts (contracts_employee cur l')) ∧
    (∀ curd : List (String × JVal),
        analyze_employee_contracts (contracts_employee (.jdict curd) []) =
          .ok ⟨to_yyyymmdd (alistGet curd "start_date" .jnull),
               to_yyyymmdd (alistGet curd "start_date" .jnull), 0, false⟩) ∧
    (∀ l : List JVal, l.Perm c2_jobs →
        (analyze_employee_contracts (contracts_employee c2_current l)).map
          ContractAnalysis.oldest_start_date = .ok "20190315") := by
  refine ⟨analyze_employee_contracts_perm, ?_, ?_⟩
  · intro curd
    rfl
  · intro l hl
    rw [analyze_employee_contracts_perm c2_current l c2_jobs hl]
    rfl

/-- Witness for C2: a transposed job order yields the same earliest date. -/
theorem c2_earliest_entry_witness :
    (analyze_employee_contracts (contracts_employee c2_current
      [.jdict [("start_date", .jstr "2019-03-15")],
       .jdict [("start_date", .jstr "2021-05-01")],
       .jdict [("start_date", .jstr "2022-01-01")]])).map
      ContractAnalysis.oldest_start_date = .ok "20190315" := by
  exact c2_earliest_entry_amended.2.2 _
    (List.Perm.swap (JVal.jdict [("start_date", JVal.jstr "2021-05-01")])
      (JVal.jdict [("start_date", JVal.jstr "2019-03-15")]) _)

/-- Counterexample for C2: the minimum does not include the current job.
With a current job started 2018-01-01 and a single historical job started
2020-01-01, the analysis returns 20200101, not the overall minimum
20180101 the claim asserts. -/
theorem c2_current_job_excluded_counterexample :
    (analyze_employee_contracts c2_employee).map ContractAnalysis.oldest_start_date =
      .ok "20200101" ∧ ("20200101" : String) ≠ "20180101" := ⟨rfl, by decide⟩

/-- C3 (amended): both output row sets are sorted by the numeric key
obtained from the Personnel Number by dropping its final character and
parsing the remainder as an integer, with 0 substituted when the parse
fails (so unparseable keys sort together with key zero, first rather than
last); the sort is a stable sort: it permutes the rows, orders them by key,
and preserves the original relative order inside every equal-key class. -/
theorem c3_stable_sort_amended (l : List Row) :
    (sort_rows l).Perm l ∧
    (sort_rows l).Pairwise (fun x y => row_sort_key x ≤ row_sort_key y) ∧
    (∀ k : Int, (sort_rows l).filter (fun r => row_sort_key r = k) =
        l.filter (fun r => row_sort_key r = k)) ∧
    extract_rut_number (.jstr "10213754k") = 10213754 ∧
    extract_rut_number (.jstr "abc") = 0 :=
  ⟨sort_rows_perm l, sort_rows_pairwise l, sort_rows_filter_stable l, rfl, rfl⟩

/-- Counterexample for C3: a row with unparseable key sorts first (key 0),
not last, and the key is not non-digit-stripping: 1a5 yields 0, not 15. -/
theorem c3_sort_key_counterexample :
    sort_rows [c3_row_b, c3_row_a] = [c3_row_a, c3_row_b] ∧
    extract_rut_number (.jstr "1a5") = 0 := ⟨rfl, rfl⟩

/-- C4 (amended): the exit-reason derivation maps the lowercased, trimmed
termination reason of the job through the fixed table and returns the raw
lookup result: a Python None (empty in the output), not the sentinel 99,
when the reason is unmapped; the employee record and the computed company
exit date are ignored, so an employee with no exit date but a mapped
termination reason still receives that code. -/
theorem c4_exit_reason_amended :
    (∀ (emp emp' : PyDict) (job : JVal) (ced ced' : String),
        determine_exit_reason emp job ced = determine_exit_reason emp' job ced') ∧
    (∀ (job tr : JVal), pyGet job "termination_reason" (.jstr "") = .ok tr →
        determine_exit_reason [] job "" =
          .ok (match strLookup TERMINATION_REASON_MAP (pyStrip (pyLower (pyStr tr))) with
               | some code => .jstr code
               | none => .jnull)) := by
  constructor
  · intro emp emp' job ced ced'
    rfl
  · intro job tr h
    unfold determine_exit_reason
    rw [h]
    rfl

/-- Witness for C4: a mapped reason yields its code. -/
theorem c4_exit_reason_witness :
    determine_exit_reason [] (.jdict [("termination_reason", .jstr "muerte")]) "" =
      .ok (.jstr "6") := by
  exact c4_exit_reason_amended.2 (.jdict [("termination_reason", .jstr "muerte")])
    (.jstr "muerte") rfl

/-- Counterexample for C4: a terminated employee with an unmapped reason
receives None, not 99, and an employee with no exit date but a mapped
reason receives a nonempty code. -/
theorem c4_exit_reason_counterexample :
    determine_exit_reason [] (.jdict [("termination_reason", .jstr "foo")]) "20240630" =
      .ok .jnull ∧
    determine_exit_reason [] (.jdict [("termination_reason", .jstr "renuncia")]) "99991231" =
      .ok (.jstr "1") := ⟨rfl, rfl⟩

/-- C5 (amended): not every field of a built row is a string (Gender is the
integer 1 or 2 when the gender maps), but the value shapes otherwise hold:
the company exit date of an employee with no exit date is the sentinel
99991231, the Target Incentive Amount is NOT_APPLICABLE when the raw value
is absent or parses to zero, every output of the date normalizer is an
eight-digit string or empty, and the two sentinels pass the ASCII
normalization of the row unchanged. -/
theorem c5_field_forms_amended :
    (∀ (job ed : JVal), pyGet job "end_date" .jnull = .ok ed → pyTruthy ed = false →
        company_exit_date_of job = .ok "99991231") ∧
    (∀ (emp : PyDict) (t : String), get_from_attrs emp ["Target Incentive Amount"] true false = .ok t →
        (t = "" ∨ ∃ p, pyFloatParse t = some p ∧ p.mantissa = 0) →
        target_incentive_amount_of emp = .ok "NOT_APPLICABLE") ∧
    (∀ v : JVal, to_yyyymmdd v = "" ∨
        ((to_yyyymmdd v).data.length = 8 ∧ (to_yyyymmdd v).data.all isDigitChar = true)) ∧
    (map_gender (.jstr "m") = .jint 1 ∧ map_gender (.jstr "f") = .jint 2) ∧
    (normalize_ascii "99991231" = "99991231" ∧
     normalize_ascii "NOT_APPLICABLE" = "NOT_APPLICABLE") := by
  refine ⟨?_, ?_, to_yyyymmdd_shape, ⟨rfl, rfl⟩, ⟨rfl, rfl⟩⟩
  · intro job ed h ht
    unfold company_exit_date_of
    rw [h]
    simp [Except.bind, Bind.bind, to_yyyymmdd_falsy ht, strOr, pure, Except.pure]
  · intro emp t h hz
    unfold target_incentive_amount_of
    rw [h]
    by_cases ht : t = ""
    · simp [Except.bind, Bind.bind, ht, pure, Except.pure]
    · rcases hz with he | ⟨p, hp, hm⟩
      · exact absurd he ht
      · simp [Except.bind, Bind.bind, ht, hp, hm, pure, Except.pure]

/-- Witness for C5: the no-exit-date sentinel at a concrete job. -/
theorem c5_field_forms_witness :
    company_exit_date_of (.jdict [("start_date", .jstr "2023-01-01")]) = .ok "99991231" := by
  exact c5_field_forms_amended.1 (.jdict [("start_date", .jstr "2023-01-01")]) .jnull rfl rfl

/-- Counterexample for C5: the Gender field of a built row is the Python
integer 1, not a string. -/
theorem c5_gender_counterexample :
    (build_employee_row c5_employee .jnull).map (fun r => alistGet r "Gender" .jnull) =
      .ok (.jint 1) ∧ isJStr (.jint 1) = false := ⟨rfl, rfl⟩

/-- C6 (amended): row construction is not exception-free on malformed
records (a null status raises in the contract-status mapper, a null first
name raises in the row builder), but the field resolver itself always
returns a string, possibly empty, whenever the current-job value of the
record is a mapping or falsy. -/
theorem c6_resolver_total_amended (emp : PyDict) (keys : List String) (prefer_job date : Bool)
    (h : dictOrFalsy (alistGet emp "current_job" .jnull) = true) :
    ∃ s, get_from_attrs emp keys prefer_job date = .ok s := by
  have hjob : ∃ jl, pyOr (alistGet emp "current_job" .jnull) (.jdict []) = .jdict jl := by
    cases hv : alistGet emp "current_job" .jnull with
    | jdict l =>
        by_cases htr : pyTruthy (JVal.jdict l) = true
        · exact ⟨l, by simp [pyOr, htr]⟩
        · exact ⟨[], by simp [pyOr, eq_false_of_ne_true htr]⟩
    | jnull => exact ⟨[], rfl⟩
    | jstr s =>
        rw [hv] at h
        simp only [dictOrFalsy, Bool.not_eq_true'] at h
        exact ⟨[], by simp [pyOr, h]⟩
    | jint n =>
        rw [hv] at h
        simp only [dictOrFalsy, Bool.not_eq_true'] at h
        exact ⟨[], by simp [pyOr, h]⟩
    | jbool b =>
        rw [hv] at h
        simp only [dictOrFalsy, Bool.not_eq_true'] at h
        exact ⟨[], by simp [pyOr, h]⟩
    | jlist l =>
        rw [hv] at h
        simp only [dictOrFalsy, Bool.not_eq_true'] at h
        exact ⟨[], by simp [pyOr, h]⟩
  obtain ⟨jl, hjl⟩ := hjob
  simp only [get_from_attrs, hjl, pyGet, Except.bind, Bind.bind, pure, Except.pure]
  cases date with
  | true => exact ⟨_, rfl⟩
  | false => exact ⟨_, rfl⟩

/-- Witness for C6: the resolver returns a string on an empty record. -/
theorem c6_resolver_total_witness :
    ∃ s, get_from_attrs [] ["GID"] true false = .ok s :=
  c6_resolver_total_amended [] ["GID"] true false rfl

/-- Counterexample for C6: a null status raises in the contract-status
mapper, and a null first name makes the whole row builder raise. -/
theorem c6_raises_counterexample :
    map_contract_status_code c6_status_employee = .error "AttributeError" ∧
    build_employee_row c6_name_employee .jnull = .error "AttributeError" := ⟨rfl, rfl⟩

theorem get_from_attrs_job_hit (emp : PyDict) (keys : List String)
    (jl : List (String × JVal)) (v : JVal)
    (hjl : pyOr (alistGet emp "current_job" .jnull) (.jdict []) = .jdict jl)
    (hca : attrsSearch keys (pyOr (alistGet jl "custom_attributes" .jnull) (.jdict [])) = some v) :
    get_from_attrs emp keys true false = .ok (pyStrip (pyStr v)) := by
  simp only [get_from_attrs, hjl, pyGet, Except.bind, Bind.bind, pure, Except.pure, hca]
  simp

theorem get_from_attrs_emp_hit (emp : PyDict) (keys : List String)
    (jl : List (String × JVal)) (v : JVal)
    (hjl : pyOr (alistGet emp "current_job" .jnull) (.jdict []) = .jdict jl)
    (hca : attrsSearch keys (pyOr (alistGet emp "custom_attributes" .jnull) (.jdict [])) = some v) :
    get_from_attrs emp keys false false = .ok (pyStrip (pyStr v)) := by
  simp only [get_from_attrs, hjl, pyGet, Except.bind, Bind.bind, pure, Except.pure, hca]
  simp

/-- C7: when the search of the preferred custom-attributes mapping finds an
entry whose value is the number 0 or the string 0, the resolver returns the
string 0, never the empty not-found result, and never falls through to the
other mapping: absence is tested by is-None, not by falsiness.  Both
preference orders are covered; the other mapping is arbitrary. -/
theorem c7_zero_preserved :
    (∀ (keys : List String) (jca eca : List (String × JVal)) (v : JVal),
        searchEntries keys jca = some v → (v = .jint 0 ∨ v = .jstr "0") →
        get_from_attrs (attrs_employee jca eca) keys true false = .ok "0") ∧
    (∀ (keys : List String) (jca eca : List (String × JVal)) (v : JVal),
        searchEntries keys eca = some v → (v = .jint 0 ∨ v = .jstr "0") →
        get_from_attrs (attrs_employee jca eca) keys false false = .ok "0") := by
  constructor
  · intro keys jca eca v hs hv
    cases jca with
    | nil => simp [searchEntries] at hs
    | cons e t =>
        rw [get_from_attrs_job_hit (attrs_employee (e :: t) eca) keys
          [("custom_attributes", .jdict (e :: t))] v rfl hs]
        rcases hv with hv | hv <;> rw [hv] <;> rfl
  · intro keys jca eca v hs hv
    cases eca with
    | nil => simp [searchEntries] at hs
    | cons e t =>
        rw [get_from_attrs_emp_hit (attrs_employee jca (e :: t)) keys
          [("custom_attributes", .jdict jca)] v rfl hs]
        rcases hv with hv | hv <;> rw [hv] <;> rfl

/-- Witness for C7: a zero-valued job-level attribute resolves to the
string 0 even though the employee-level mapping carries a different value. -/
theorem c7_zero_preserved_witness :
    get_from_attrs (attrs_employee [("Target incentive amount", .jint 0)]
      [("Target Incentive Amount", .jstr "5")]) ["Target Incentive Amount"] true false =
      .ok "0" := by
  exact c7_zero_preserved.1 ["Target Incentive Amount"] [("Target incentive amount", .jint 0)]
    [("Target Incentive Amount", .jstr "5")] (.jint 0) rfl (Or.inl rfl)

/-- C9 (amended): the decimal normalizer resolves the locale by the
positions of the last comma and last dot, formats to exactly two decimal
places (the three locale examples and the two-decimal round trip), and on
any parse failure returns the stripped original string, never raising; the
surrounding whitespace of the original is removed on the failure path. -/
theorem c9_decimal_amended :
    format_decimal_two_places (.jstr "1.234,56") = "1234.56" ∧
    format_decimal_two_places (.jstr "1,234.56") = "1234.56" ∧
    format_decimal_two_places (.jstr "10,5") = "10.50" ∧
    format_decimal_two_places (.jstr "1234.56") = "1234.56" ∧
    (∀ s : String,
        decParseChars (cleanDecimalChars (decimalLocaleFix (pyEraseChar (pyStrip s) ' '))).data =
          none →
        format_decimal_two_places (.jstr s) = pyStrip s) := by
  refine ⟨rfl, rfl, rfl, rfl, ?_⟩
  intro s h
  show (let s0 := pyStrip (pyStr (.jstr s)); _) = pyStrip s
  simp only [format_decimal_two_places, pyStr]
  by_cases hs : pyStrip s = ""
  · simp [hs]
  · simp only [hs, if_false]
    set sc := cleanDecimalChars (decimalLocaleFix (pyEraseChar (pyStrip s) ' ')) with hsc
    by_cases hsen : (sc = "" || sc = "." || sc = "-" || sc = "-." || sc = ".-") = true
    · simp [hsen]
    · simp only [hsen, Bool.false_eq_true, if_false]
      rw [h]

/-- Witness for C9: a non-numeric string comes back stripped. -/
theorem c9_decimal_witness :
    format_decimal_two_places (.jstr " 1-2 ") = pyStrip " 1-2 " := by
  exact c9_decimal_amended.2.2.2.2 " 1-2 " rfl

/-- Counterexample for C9: on a parse failure the original string is not
returned unmodified; its surrounding whitespace is stripped. -/
theorem c9_strip_counterexample :
    format_decimal_two_places (.jstr " abc") = "abc" ∧ (" abc" : String) ≠ "abc" :=
  ⟨rfl, by decide⟩

/-- C10: every row accumulated into either output of the export loop has
exactly the fixed column list COLS, in order, including the second
Contract Type column with the trailing space; the optional Filter Reason
column is never part of it, because the loop builds every row with no
filter reason; Filter Reason is not a member of COLS and only of
FILTERED_COLS. -/
theorem c10_output_columns (pos poe pcs pce : String) (emps : List PyDict)
    (act fil : List Row) (h : process_employees pos poe pcs pce emps = .ok (act, fil)) :
    (∀ r ∈ act, r.map Prod.fst = COLS) ∧ (∀ r ∈ fil, r.map Prod.fst = COLS) ∧
    "Filter Reason" ∉ COLS ∧ FILTERED_COLS = COLS ++ ["Filter Reason"] := by
  obtain ⟨h1, h2⟩ := process_employees_keys pos poe pcs pce emps act fil h
  exact ⟨h1, h2, by decide, rfl⟩

/-- Witness for C10: the single row of a concrete terminated-employee run
carries exactly the columns COLS. -/
theorem c10_output_columns_witness :
    ∃ act fil, process_employees "20250801" "20250831" "20240601" "20240630" [c8_employee] =
      .ok (act, fil) ∧ (∀ r ∈ fil, r.map Prod.fst = COLS) ∧ act = [] := by
  refine ⟨_, _, rfl, ?_, rfl⟩
  exact (c10_output_columns "20250801" "20250831" "20240601" "20240630" [c8_employee] _ _ rfl).2.1

end ApiBuk
